import Mathlib

/-!
Verification of `custom_image_utils/shell_script_generator.py`, the shell-script
based image-creation workflow generator.

The Python module builds a dictionary of derived parameters (`Generator._init_args`)
and substitutes them into a fixed format-string template (`Generator.generate`).
We embed the dictionary as an insertion-ordered association list with Python
`dict` semantics, the format string as a token list (literal runs and `{name}`
placeholders, in source order, with `{{`/`}}` of the source turned into literal
braces inside the literal runs), and each statement of `_init_args` as a step
in the `Except` monad: a Python `KeyError(name)` becomes `Except.error name`.
The embedded shell logic of the generated script (the disk-source conditional,
the result-detection `if grep ... elif grep ... else`, and the `exit_handler`
cleanup function) is modelled by small Lean functions placed next to the
template chunks they interpret.
-/

namespace ShellScriptGenerator

/-- A Python value as it occurs in the generator's argument dictionary:
strings, integers, booleans, `None`, and the string-to-string `extra_sources`
dictionary. -/
inductive Val where
  | vStr (s : String)
  | vInt (n : Int)
  | vBool (b : Bool)
  | vNone
  | vDict (d : List (String × String))
deriving DecidableEq

/-- Python truthiness, as used in `if self.args["subnetwork"]:` etc. -/
def pyTruthy : Val → Bool
  | .vStr s => s ≠ ""
  | .vInt n => n ≠ 0
  | .vBool b => b
  | .vNone => false
  | .vDict d => d ≠ []

/-- Python `str()` as applied by `str.format` interpolation.  The generator
only ever interpolates strings (ints/bools/None would render as shown); a
dict value is never interpolated by any format string of the module, so its
rendering is irrelevant and we give it the empty string. -/
def pyStr : Val → String
  | .vStr s => s
  | .vInt n => toString n
  | .vBool b => if b then "True" else "False"
  | .vNone => "None"
  | .vDict _ => ""

/-- The argument dictionary: insertion-ordered, one entry per key. -/
def Args := List (String × Val)
deriving DecidableEq

/-- Dictionary lookup (`d[k]`), returning `none` where Python raises `KeyError`. -/
def lookupVal : Args → String → Option Val
  | [], _ => none
  | (k', v) :: rest, k => if k' = k then some v else lookupVal rest k

/-- Dictionary assignment `d[k] = v`: updates the value in place when the key
is present (keeping its position), appends a new entry otherwise — Python
`dict` semantics. -/
def dset : Args → String → Val → Args
  | [], k, v => [(k, v)]
  | (k', v') :: rest, k, v =>
      if k' = k then (k', v) :: rest else (k', v') :: dset rest k v

/-- Lookup of `k` in a strict (`KeyError`-raising) position. -/
def getArg (a : Args) (k : String) : Except String Val :=
  match lookupVal a k with
  | some v => .ok v
  | none => .error k

/-- One token of a Python format string: a literal run or a `{name}`
placeholder (`{{`/`}}` of the source are literal braces, folded into the
literal runs). -/
inductive Tok where
  | lit (s : String)
  | ph (k : String)
deriving DecidableEq

/-- `str.format(**args)`: concatenate literal runs and interpolated values in
order; a placeholder whose name is not in the dictionary raises
`KeyError(name)`, modelled as `Except.error name` (the first missing name in
template order wins, as in CPython). -/
def formatToks (args : Args) : List Tok → Except String String
  | [] => .ok ""
  | .lit s :: rest => (formatToks args rest).map (fun t => s ++ t)
  | .ph k :: rest =>
      match lookupVal args k with
      | some v => (formatToks args rest).map (fun t => pyStr v ++ t)
      | none => .error k

/-- Python `str.replace(pat, rep)` for a non-empty pattern: left-to-right,
non-overlapping.  The extra fuel argument (at least the input length, so it
never runs out: a match always consumes at least one character) keeps the
recursion structural. -/
def pyReplaceAux (pat rep : List Char) : Nat → List Char → List Char
  | _, [] => []
  | 0, l => l
  | fuel + 1, c :: rest =>
      if pat ≠ [] ∧ pat.isPrefixOf (c :: rest) then
        rep ++ pyReplaceAux pat rep fuel ((c :: rest).drop pat.length)
      else
        c :: pyReplaceAux pat rep fuel rest

/-- Python `s.replace(pat, rep)` (non-empty `pat`). -/
def pyReplace (s pat rep : String) : String :=
  ⟨pyReplaceAux pat.data rep.data s.data.length s.data⟩

/-- Assignment on the string-valued `extra_sources`/`all_sources` dictionary,
Python `dict` semantics as in `dset`. -/
def sset : List (String × String) → String → String → List (String × String)
  | [], k, v => [(k, v)]
  | (k', v') :: rest, k, v =>
      if k' = k then (k', v) :: rest else (k', v') :: sset rest k v

/-- `d.update(extras)`: assign each entry of `extras` in order. -/
def dictUpdate (d extras : List (String × String)) : List (String × String) :=
  extras.foldl (fun acc kv => sset acc kv.1 kv.2) d

/-- `all_sources` (lines 142-146): the two fixed entries, then
`update(self.args["extra_sources"])`. -/
def allSources (customization_script : String)
    (extras : List (String × String)) : List (String × String) :=
  dictUpdate
    [("run.sh", "startup_script/run.sh"),
     ("init_actions.sh", customization_script)]
    extras

/-- `s.replace("'", "'\\''")` — the quote-escaping applied to every key and
value of the sources map (lines 149-152). -/
def shQuoteEsc (s : String) : String := pyReplace s "'" "'\\''"

/-- `"[{}]='{}'".format(i, s.replace("'", "'\\''"))` — one cell of the
rendered shell array literal. -/
def encodeCell (i : Nat) (s : String) : String :=
  "[" ++ toString i ++ "]='" ++ shQuoteEsc s ++ "'"

/-- The per-index cells of the key array (from `enumerate(all_sources.items())`). -/
def kCells (l : List (String × String)) : List String :=
  l.enum.map (fun p => encodeCell p.1 p.2.1)

/-- The per-index cells of the value array. -/
def vCells (l : List (String × String)) : List String :=
  l.enum.map (fun p => encodeCell p.1 p.2.2)

/-- `self.args["sources_map_k"]` (lines 149-150): `" ".join(...)`. -/
def sourcesMapK (l : List (String × String)) : String :=
  String.intercalate " " (kCells l)

/-- `self.args["sources_map_v"]` (lines 151-152). -/
def sourcesMapV (l : List (String × String)) : String :=
  String.intercalate " " (vCells l)

/-- The fields of `datetime.now()` that `strftime("%Y%m%d-%H%M%S")` reads. -/
structure PyDateTime where
  year : Nat
  month : Nat
  day : Nat
  hour : Nat
  minute : Nat
  second : Nat

/-- Two zero-padded decimal digits, as `%m`/`%d`/`%H`/`%M`/`%S` print their
(always in-range, hence at most two-digit) field. -/
def twoDigits (n : Nat) : List Char :=
  [Nat.digitChar (n / 10 % 10), Nat.digitChar (n % 10)]

/-- Four zero-padded decimal digits, as `%Y` prints a year below 10000 (every
wall-clock year). -/
def fourDigits (n : Nat) : List Char :=
  [Nat.digitChar (n / 1000 % 10), Nat.digitChar (n / 100 % 10),
   Nat.digitChar (n / 10 % 10), Nat.digitChar (n % 10)]

/-- `datetime.now().strftime("%Y%m%d-%H%M%S")` (line 138). -/
def strftimeTs (t : PyDateTime) : String :=
  ⟨fourDigits t.year ++ twoDigits t.month ++ twoDigits t.day ++ ['-'] ++
    twoDigits t.hour ++ twoDigits t.minute ++ twoDigits t.second⟩

/-- `extra_sources` is a str-to-str dict in every call; a non-dict value would
be a `TypeError` in Python and never occurs, so the other cases are mapped to
the empty dictionary. -/
def asDict : Val → List (String × String)
  | .vDict d => d
  | _ => []

/-- Lines 136-138: default `run_id` to
`"custom-image-{image_name}-{timestamp}".format(timestamp=now.strftime(...), **self.args)`
when the key is absent.  The keyword argument `timestamp` is modelled by
formatting against the dictionary temporarily extended with it. -/
def stepRunId (now : PyDateTime) (args : Args) : Except String Args :=
  if (lookupVal args "run_id").isNone then
    (formatToks (dset args "timestamp" (.vStr (strftimeTs now)))
        [.lit "custom-image-", .ph "image_name", .lit "-", .ph "timestamp"]).map
      (fun rid => dset args "run_id" (.vStr rid))
  else .ok args

/-- Line 139: `self.args["bucket_name"] = self.args["gcs_bucket"].replace("gs://", "")`. -/
def stepBucketName (args : Args) : Except String Args :=
  (getArg args "gcs_bucket").map
    (fun gb => dset args "bucket_name" (.vStr (pyReplace (pyStr gb) "gs://" "")))

/-- Line 140: `"gs://{bucket_name}/{run_id}/sources".format(**self.args)`. -/
def stepSourcesPath (args : Args) : Except String Args :=
  (formatToks args
      [.lit "gs://", .ph "bucket_name", .lit "/", .ph "run_id", .lit "/sources"]).map
    (fun p => dset args "custom_sources_path" (.vStr p))

/-- Lines 142-152: build `all_sources` and store the two rendered shell-array
literals. -/
def stepSources (args : Args) : Except String Args := do
  let cs ← getArg args "customization_script"
  let ex ← getArg args "extra_sources"
  let l := allSources (pyStr cs) (asDict ex)
  let args := dset args "sources_map_k" (.vStr (sourcesMapK l))
  .ok (dset args "sources_map_v" (.vStr (sourcesMapV l)))

/-- Lines 154-156: `log_dir` and `gcs_log_dir`. -/
def stepLogDirs (args : Args) : Except String Args := do
  let ld ← formatToks args [.lit "/tmp/", .ph "run_id", .lit "/logs"]
  let args := dset args "log_dir" (.vStr ld)
  let gld ← formatToks args
      [.lit "gs://", .ph "bucket_name", .lit "/", .ph "run_id", .lit "/logs"]
  .ok (dset args "gcs_log_dir" (.vStr gld))

/-- Lines 157-162: the `subnetwork`/`network` conditional.  Note that when
both are falsy, neither `network_flag` nor `subnetwork_flag` is assigned. -/
def stepNetwork (args : Args) : Except String Args := do
  let sub ← getArg args "subnetwork"
  if pyTruthy sub then do
    let f ← formatToks args [.lit "--subnet=", .ph "subnetwork"]
    .ok (dset (dset args "subnetwork_flag" (.vStr f)) "network_flag" (.vStr ""))
  else do
    let net ← getArg args "network"
    if pyTruthy net then do
      let f ← formatToks args [.lit "--network=", .ph "network"]
      .ok (dset (dset args "network_flag" (.vStr f)) "subnetwork_flag" (.vStr ""))
    else .ok args

/-- Lines 163-166: `service_account_flag`, assigned only when the option is
truthy. -/
def stepServiceAccount (args : Args) : Except String Args := do
  let sa ← getArg args "service_account"
  if pyTruthy sa then do
    let f ← formatToks args [.lit "--service-account=", .ph "service_account"]
    .ok (dset args "service_account_flag" (.vStr f))
  else .ok args

/-- Lines 167-168: `no_external_ip_flag`, always assigned. -/
def stepNoExternalIp (args : Args) : Except String Args := do
  let nei ← getArg args "no_external_ip"
  .ok (dset args "no_external_ip_flag"
        (.vStr (if pyTruthy nei then "--no-address" else "")))

/-- Lines 169-171: `accelerator_flag`, always assigned (empty when falsy). -/
def stepAccelerator (args : Args) : Except String Args := do
  let acc ← getArg args "accelerator"
  let f ← if pyTruthy acc then
      formatToks args
        [.lit "--accelerator=", .ph "accelerator",
         .lit " --maintenance-policy terminate"]
    else .ok ""
  .ok (dset args "accelerator_flag" (.vStr f))

/-- Lines 172-174: `storage_location_flag`, always assigned (empty when falsy). -/
def stepStorageLocation (args : Args) : Except String Args := do
  let sl ← getArg args "storage_location"
  let f ← if pyTruthy sl then
      formatToks args [.lit "--storage-location=", .ph "storage_location"]
    else .ok ""
  .ok (dset args "storage_location_flag" (.vStr f))

/-- The fixed part of `metadata_flag_template` (lines 175-177). -/
def metadataToksBase : List Tok :=
  [.lit "--metadata=shutdown-timer-in-sec=", .ph "shutdown_timer_in_sec",
   .lit ",custom-sources-path=", .ph "custom_sources_path"]

/-- Lines 175-180: `metadata_flag`, with `,{metadata}` appended to the
template when `metadata` is truthy. -/
def stepMetadata (args : Args) : Except String Args := do
  let md ← getArg args "metadata"
  let toks := if pyTruthy md then metadataToksBase ++ [.lit ",", .ph "metadata"]
    else metadataToksBase
  let f ← formatToks args toks
  .ok (dset args "metadata_flag" (.vStr f))

/-- `Generator._init_args` (lines 134-180): the statements in source order,
threading the mutated dictionary. -/
def init_args (args : Args) (now : PyDateTime) : Except String Args :=
  stepRunId now args >>= stepBucketName >>= stepSourcesPath >>= stepSources >>=
    stepLogDirs >>= stepNetwork >>= stepServiceAccount >>= stepNoExternalIp >>=
    stepAccelerator >>= stepStorageLocation >>= stepMetadata

def tmplHead : List Tok := [
  .lit "\n#!/usr/bin/env bash\n\n# Script for creating Dataproc custom image.\n\nset -euxo pipefail\n\nRED='\\e[0;31m'\nGREEN='\\e[0;32m'\nNC='\\e[0m'\n\nfunction exit_handler() \x7b\n  echo 'Cleaning up before exiting.'\n\n  if [[ -f /tmp/",
  .ph "run_id",
  .lit "/vm_created ]]; then\n    echo 'Deleting VM instance.'\n    gcloud compute instances delete ",
  .ph "image_name",
  .lit "-install         --project=",
  .ph "project_id",
  .lit " --zone=",
  .ph "zone",
  .lit " -q\n  elif [[ -f /tmp/",
  .ph "run_id",
  .lit "/disk_created ]]; then\n    echo 'Deleting disk.'\n    gcloud compute disks delete ",
  .ph "image_name",
  .lit "-install --project=",
  .ph "project_id",
  .lit " --zone=",
  .ph "zone",
  .lit " -q\n  fi\n\n  echo 'Uploading local logs to GCS bucket.'\n  gsutil -m rsync -r ",
  .ph "log_dir",
  .lit "/ ",
  .ph "gcs_log_dir",
  .lit "/\n\n  if [[ -f /tmp/",
  .ph "run_id",
  .lit "/image_created ]]; then\n    echo -e \"$\x7bGREEN\x7dWorkflow succeeded, check logs at ",
  .ph "log_dir",
  .lit "/ or ",
  .ph "gcs_log_dir",
  .lit "/$\x7bNC\x7d\"\n    exit 0\n  else\n    echo -e \"$\x7bRED\x7dWorkflow failed, check logs at ",
  .ph "log_dir",
  .lit "/ or ",
  .ph "gcs_log_dir",
  .lit "/$\x7bNC\x7d\"\n    exit 1\n  fi\n\x7d\n\nfunction main() \x7b\n  echo 'Uploading files to GCS bucket.'\n  declare -a sources_k=(",
  .ph "sources_map_k",
  .lit ")\n  declare -a sources_v=(",
  .ph "sources_map_v",
  .lit ")\n  for i in \"$\x7b!sources_k[@]\x7d\"; do\n    gsutil cp \"$\x7bsources_v[i]\x7d\" \"",
  .ph "custom_sources_path",
  .lit "/$\x7bsources_k[i]\x7d\"\n  done\n\n  echo 'Creating disk.'\n"
]

/-- Template lines 65-69 of the source: the disk-source conditional of the
generated script. -/
def tmplDiskIf : List Tok := [
  .lit "  if [[ '",
  .ph "base_image_family",
  .lit "' = '' ||  '",
  .ph "base_image_family",
  .lit "' = 'None' ]]; then\n     IMAGE_SOURCE=\"--image=",
  .ph "base_image",
  .lit "\"\n  else\n     IMAGE_SOURCE=\"--image-family=",
  .ph "base_image_family",
  .lit "\"\n  fi\n"
]

def tmplMid1 : List Tok := [
  .lit "  \n  gcloud compute disks create ",
  .ph "image_name",
  .lit "-install       --project=",
  .ph "project_id",
  .lit "       --zone=",
  .ph "zone",
  .lit "       $\x7bIMAGE_SOURCE\x7d       --type=pd-ssd       --size=",
  .ph "disk_size",
  .lit "GB\n\n  touch \"/tmp/",
  .ph "run_id",
  .lit "/disk_created\"\n\n  echo 'Creating VM instance to run customization script.'\n  gcloud compute instances create ",
  .ph "image_name",
  .lit "-install       --project=",
  .ph "project_id",
  .lit "       --zone=",
  .ph "zone",
  .lit "       ",
  .ph "network_flag",
  .lit "       ",
  .ph "subnetwork_flag",
  .lit "       ",
  .ph "no_external_ip_flag",
  .lit "       --machine-type=",
  .ph "machine_type",
  .lit "       --disk=auto-delete=yes,boot=yes,mode=rw,name=",
  .ph "image_name",
  .lit "-install       ",
  .ph "accelerator_flag",
  .lit "       ",
  .ph "service_account_flag",
  .lit "       --scopes=cloud-platform       ",
  .ph "metadata_flag",
  .lit "       --metadata-from-file startup-script=startup_script/run.sh\n  touch /tmp/",
  .ph "run_id",
  .lit "/vm_created\n\n  echo 'Waiting for customization script to finish and VM shutdown.'\n  gcloud compute instances tail-serial-port-output ",
  .ph "image_name",
  .lit "-install       --project=",
  .ph "project_id",
  .lit "       --zone=",
  .ph "zone",
  .lit "       --port=1 2>&1       | grep 'startup-script'       | tee ",
  .ph "log_dir",
  .lit "/startup-script.log       || true\n\n"
]

/-- Template lines 105-114 of the source: the result-detection step of the
generated script. -/
def tmplResultCheck : List Tok := [
  .lit "  echo 'Checking customization script result.'\n  if grep 'BuildFailed:' ",
  .ph "log_dir",
  .lit "/startup-script.log; then\n    echo -e \"$\x7bRED\x7dCustomization script failed.$\x7bNC\x7d\"\n    exit 1\n  elif grep 'BuildSucceeded:' ",
  .ph "log_dir",
  .lit "/startup-script.log; then\n    echo -e \"$\x7bGREEN\x7dCustomization script succeeded.$\x7bNC\x7d\"\n  else\n    echo 'Unable to determine the customization script result.'\n    exit 1\n  fi\n"
]

def tmplMid2 : List Tok := [
  .lit "\n  echo 'Creating custom image.'\n  gcloud compute images create ",
  .ph "image_name",
  .lit "       --project=",
  .ph "project_id",
  .lit "       --source-disk-zone=",
  .ph "zone",
  .lit "       --source-disk=",
  .ph "image_name",
  .lit "-install       ",
  .ph "storage_location_flag",
  .lit "       --family=",
  .ph "family",
  .lit "\n  touch /tmp/",
  .ph "run_id",
  .lit "/image_created\n\x7d\n\n"
]

/-- Template lines 126-128 of the source: trap installation, log directory
creation and the invocation of `main`. -/
def tmplTail : List Tok := [
  .lit "trap exit_handler EXIT\nmkdir -p ",
  .ph "log_dir",
  .lit "\nmain \"$@\" 2>&1 | tee ",
  .ph "log_dir",
  .lit "/workflow.log\n"
]

/-- The whole `_template` string (lines 21-129), in source order. -/
def tmplToks : List Tok :=
  tmplHead ++ tmplDiskIf ++ tmplMid1 ++ tmplResultCheck ++ tmplMid2 ++ tmplTail

/-- `Generator.generate` (lines 182-184): `_init_args` then
`_template.format(**args)` against the same (mutated) dictionary. -/
def generate (args : Args) (now : PyDateTime) : Except String String :=
  init_args args now >>= fun a => formatToks a tmplToks

/-- The caller-supplied build options (all semantically strings except the
external-IP flag and the extra-sources dictionary; a missing `run_id` is the
common case). -/
structure BuildOptions where
  image_name : String
  project_id : String
  zone : String
  gcs_bucket : String
  family : String
  base_image : String
  base_image_family : String
  customization_script : String
  machine_type : String
  disk_size : String
  network : String
  subnetwork : String
  service_account : String
  accelerator : String
  storage_location : String
  metadata : String
  shutdown_timer_in_sec : String
  no_external_ip : Bool
  extra_sources : List (String × String)
  run_id : Option String

/-- The dictionary the caller hands to `Generator.generate`. -/
def BuildOptions.toArgs (o : BuildOptions) : Args :=
  (match o.run_id with
   | some r => [("run_id", Val.vStr r)]
   | none => []) ++
  [("image_name", .vStr o.image_name),
   ("project_id", .vStr o.project_id),
   ("zone", .vStr o.zone),
   ("gcs_bucket", .vStr o.gcs_bucket),
   ("family", .vStr o.family),
   ("base_image", .vStr o.base_image),
   ("base_image_family", .vStr o.base_image_family),
   ("customization_script", .vStr o.customization_script),
   ("machine_type", .vStr o.machine_type),
   ("disk_size", .vStr o.disk_size),
   ("network", .vStr o.network),
   ("subnetwork", .vStr o.subnetwork),
   ("service_account", .vStr o.service_account),
   ("accelerator", .vStr o.accelerator),
   ("storage_location", .vStr o.storage_location),
   ("metadata", .vStr o.metadata),
   ("shutdown_timer_in_sec", .vStr o.shutdown_timer_in_sec),
   ("no_external_ip", .vBool o.no_external_ip),
   ("extra_sources", .vDict o.extra_sources)]

/-- The `run_id` in effect after resolution: the caller's when supplied, the
timestamped default otherwise. -/
def ridOf (o : BuildOptions) (now : PyDateTime) : String :=
  match o.run_id with
  | some r => r
  | none => "custom-image-" ++ o.image_name ++ "-" ++ strftimeTs now

/-- The resolved `bucket_name`. -/
def bnOf (o : BuildOptions) : String := pyReplace o.gcs_bucket "gs://" ""

/-- The resolved `custom_sources_path`. -/
def cspOf (o : BuildOptions) (now : PyDateTime) : String :=
  "gs://" ++ bnOf o ++ "/" ++ ridOf o now ++ "/sources"

/-- The dictionary after the `run_id` statement (lines 136-138). -/
def rArgs1 (o : BuildOptions) (now : PyDateTime) : Args :=
  match o.run_id with
  | some _ => o.toArgs
  | none => dset o.toArgs "run_id" (.vStr (ridOf o now))

/-- The dictionary after line 139. -/
def rArgs2 (o : BuildOptions) (now : PyDateTime) : Args :=
  dset (rArgs1 o now) "bucket_name" (.vStr (bnOf o))

/-- The dictionary after line 140. -/
def rArgs3 (o : BuildOptions) (now : PyDateTime) : Args :=
  dset (rArgs2 o now) "custom_sources_path" (.vStr (cspOf o now))

/-- The dictionary after lines 142-152. -/
def rArgs4 (o : BuildOptions) (now : PyDateTime) : Args :=
  dset
    (dset (rArgs3 o now) "sources_map_k"
      (.vStr (sourcesMapK (allSources o.customization_script o.extra_sources))))
    "sources_map_v"
    (.vStr (sourcesMapV (allSources o.customization_script o.extra_sources)))

/-- The dictionary after lines 154-156. -/
def rArgs5 (o : BuildOptions) (now : PyDateTime) : Args :=
  dset
    (dset (rArgs4 o now) "log_dir" (.vStr ("/tmp/" ++ ridOf o now ++ "/logs")))
    "gcs_log_dir"
    (.vStr ("gs://" ++ bnOf o ++ "/" ++ ridOf o now ++ "/logs"))

/-- The dictionary after lines 157-162. -/
def rArgs6 (o : BuildOptions) (now : PyDateTime) : Args :=
  if pyTruthy (.vStr o.subnetwork) then
    dset (dset (rArgs5 o now) "subnetwork_flag"
        (.vStr ("--subnet=" ++ o.subnetwork)))
      "network_flag" (.vStr "")
  else if pyTruthy (.vStr o.network) then
    dset (dset (rArgs5 o now) "network_flag"
        (.vStr ("--network=" ++ o.network)))
      "subnetwork_flag" (.vStr "")
  else rArgs5 o now

/-- The dictionary after lines 163-166. -/
def rArgs7 (o : BuildOptions) (now : PyDateTime) : Args :=
  if pyTruthy (.vStr o.service_account) then
    dset (rArgs6 o now) "service_account_flag"
      (.vStr ("--service-account=" ++ o.service_account))
  else rArgs6 o now

/-- The dictionary after lines 167-168. -/
def rArgs8 (o : BuildOptions) (now : PyDateTime) : Args :=
  dset (rArgs7 o now) "no_external_ip_flag"
    (.vStr (if pyTruthy (.vBool o.no_external_ip) then "--no-address" else ""))

/-- The dictionary after lines 169-171. -/
def rArgs9 (o : BuildOptions) (now : PyDateTime) : Args :=
  dset (rArgs8 o now) "accelerator_flag"
    (.vStr
      (if pyTruthy (.vStr o.accelerator) then
        "--accelerator=" ++ o.accelerator ++ " --maintenance-policy terminate"
      else ""))

/-- The dictionary after lines 172-174. -/
def rArgs10 (o : BuildOptions) (now : PyDateTime) : Args :=
  dset (rArgs9 o now) "storage_location_flag"
    (.vStr
      (if pyTruthy (.vStr o.storage_location) then
        "--storage-location=" ++ o.storage_location
      else ""))

/-- The dictionary after all of `_init_args` (proved equal to
`init_args o.toArgs now` below). -/
def resolvedArgs (o : BuildOptions) (now : PyDateTime) : Args :=
  dset (rArgs10 o now) "metadata_flag"
    (.vStr
      ("--metadata=shutdown-timer-in-sec=" ++ o.shutdown_timer_in_sec ++
        ",custom-sources-path=" ++ cspOf o now ++
        (if pyTruthy (.vStr o.metadata) then "," ++ o.metadata else "")))

/-- The keys `_init_args` may write (everything it ever passes to `dset` on
the persistent dictionary). -/
def derivedKeys : List String :=
  ["run_id", "bucket_name", "custom_sources_path", "sources_map_k",
   "sources_map_v", "log_dir", "gcs_log_dir", "subnetwork_flag",
   "network_flag", "service_account_flag", "no_external_ip_flag",
   "accelerator_flag", "storage_location_flag", "metadata_flag"]

/-- Remove a key from the dictionary, to express options lacking a field. -/
def removeKey (a : Args) (k : String) : Args :=
  a.filter (fun kv => kv.1 ≠ k)

/-- Does a token list mention only placeholders from the given allowance?
Used to show that a rendering error names the first absent placeholder. -/
def phOnly (allowed : List String) : Tok → Bool
  | .lit _ => true
  | .ph k => allowed.contains k

/-- Shell semantics of the disk-source conditional (`tmplDiskIf`): the string
the variable `IMAGE_SOURCE` holds after
`if [[ '<fam>' = '' ||  '<fam>' = 'None' ]]; then ... else ... fi`. -/
def imageSource (base_image_family base_image : String) : String :=
  if base_image_family = "" ∨ base_image_family = "None" then
    "--image=" ++ base_image
  else
    "--image-family=" ++ base_image_family

/-- Does `l` contain `pat` as a contiguous substring? -/
def hasInfix (pat : List Char) : List Char → Bool
  | [] => pat.isEmpty
  | c :: rest => pat.isPrefixOf (c :: rest) || hasInfix pat rest

/-- The lines of a text (splitting on newline, as `grep` reads its input). -/
def linesOf : List Char → List (List Char)
  | [] => [[]]
  | c :: rest =>
      if c = '\n' then [] :: linesOf rest
      else
        match linesOf rest with
        | [] => [[c]]
        | l :: ls => (c :: l) :: ls

/-- `grep 'pat' file` over the captured log: does some line contain the
pattern as a substring? -/
def grepMatch (pat log : String) : Bool :=
  (linesOf log.data).any (fun l => hasInfix pat.data l)

/-- Classification of the captured startup-script log by the generated
script's result-detection step (`tmplResultCheck`). -/
inductive ScriptResult where
  | buildFailed
  | buildSucceeded
  | undetermined
deriving DecidableEq

/-- Shell semantics of `tmplResultCheck`: `if grep 'BuildFailed:' ...` exits 1,
`elif grep 'BuildSucceeded:' ...` proceeds to image creation, `else` exits 1
with the undetermined-result diagnosis. -/
def checkResult (log : String) : ScriptResult :=
  if grepMatch "BuildFailed:" log then .buildFailed
  else if grepMatch "BuildSucceeded:" log then .buildSucceeded
  else .undetermined

/-- The three marker files under `/tmp/<run_id>/` when `exit_handler` runs. -/
structure Markers where
  vm_created : Bool
  disk_created : Bool
  image_created : Bool

/-- The externally visible cleanup actions of `exit_handler`. -/
inductive CleanupAct where
  | deleteVM
  | deleteDisk
  | syncLogs
deriving DecidableEq

/-- Shell semantics of `exit_handler` (template lines 32-54): delete the VM if
`vm_created` exists, else delete the disk if `disk_created` exists; then
always sync the local log directory to the bucket. -/
def exitHandlerActs (m : Markers) : List CleanupAct :=
  (if m.vm_created then [.deleteVM]
   else if m.disk_created then [.deleteDisk]
   else []) ++ [.syncLogs]

/-- Shell semantics of `exit_handler`, exit code: 0 iff the `image_created`
marker exists. -/
def exitHandlerCode (m : Markers) : Nat :=
  if m.image_created then 0 else 1

/-- A parser for the shell word fragments the generator emits into the array
literals: a sequence of single-quoted spans (no escapes inside) and
backslash-escaped characters outside quotes.  The flag says whether the parser
is inside a single-quoted span; `none` means the word is malformed (an
unterminated quote or a dangling backslash). -/
def shParse (inQuote : Bool) : List Char → Option (List Char)
  | [] => if inQuote then none else some []
  | c :: rest =>
      if inQuote then
        if c = '\'' then shParse false rest
        else (shParse true rest).map (fun t => c :: t)
      else
        if c = '\'' then shParse true rest
        else if c = '\\' then
          match rest with
          | [] => none
          | c2 :: rest2 => (shParse false rest2).map (fun t => c2 :: t)
        else (shParse false rest).map (fun t => c :: t)
termination_by structural l => l

/-- Parsing a whole word, starting outside quotes. -/
def shUnquote (l : List Char) : Option (List Char) := shParse false l

/-- Modelled from the spec: `bucket_name` as "the storage bucket name with any
URI scheme prefix stripped" — strip one leading `gs://` if present.  Stated
only to compare with the code's `replace("gs://", "")`. -/
def specStripScheme (s : String) : String :=
  if "gs://".data.isPrefixOf s.data then ⟨s.data.drop 5⟩ else s

/-- A fully populated set of options used for concrete witnesses. -/
def demoOptions : BuildOptions :=
  { image_name := "demo"
    project_id := "p"
    zone := "z"
    gcs_bucket := "gs://b"
    family := "debian-11-custom"
    base_image := "projects/x/global/images/base"
    base_image_family := "debian-11"
    customization_script := "/local/init.sh"
    machine_type := "n1-standard-2"
    disk_size := "15"
    network := "my-net"
    subnetwork := "my-subnet"
    service_account := "sa@p.iam"
    accelerator := "type=nvidia-tesla-t4,count=1"
    storage_location := "us"
    metadata := "k=v"
    shutdown_timer_in_sec := "500"
    no_external_ip := false
    extra_sources := [("a.sh", "gs://x/a.sh")]
    run_id := none }

/-- A concrete timestamp for witness evaluations. -/
def demoNow : PyDateTime :=
  { year := 2026, month := 10, day := 12, hour := 15, minute := 30, second := 7 }

/-- `demoOptions` with all five optional fields empty — the configuration the
spec says must degrade to empty flags. -/
def emptyOptionalOptions : BuildOptions :=
  { demoOptions with
      network := ""
      subnetwork := ""
      service_account := ""
      accelerator := ""
      storage_location := "" }

/-- Options with a bucket name in which `gs://` occurs beyond the scheme
position. -/
def oddBucketOptions : BuildOptions :=
  { demoOptions with gcs_bucket := "gs://gs://b" }

/-- `demoOptions` with an explicit caller-supplied `run_id`. -/
def demoRunOptions : BuildOptions :=
  { demoOptions with run_id := some "my-run-7" }

/-- `emptyOptionalOptions` with `metadata` also empty. -/
def bareOptions : BuildOptions :=
  { emptyOptionalOptions with metadata := "" }

/-- A second, different timestamp. -/
def altNow : PyDateTime :=
  { year := 2027, month := 1, day := 2, hour := 3, minute := 4, second := 5 }

/-!  ## Theorems  -/

@[simp] theorem except_ok_bind {ε α β : Type} (v : α) (f : α → Except ε β) :
    (Except.ok v >>= f) = f v := rfl

@[simp] theorem except_error_bind {ε α β : Type} (e : ε) (f : α → Except ε β) :
    ((Except.error e : Except ε α) >>= f) = Except.error e := rfl

@[simp] theorem except_bind_ok {ε α β : Type} (v : α) (f : α → Except ε β) :
    Except.bind (Except.ok v) f = f v := rfl

@[simp] theorem except_bind_error {ε α β : Type} (e : ε) (f : α → Except ε β) :
    Except.bind (Except.error e : Except ε α) f = Except.error e := rfl

@[simp] theorem except_map_ok {ε α β : Type} (f : α → β) (v : α) :
    (Except.ok v : Except ε α).map f = Except.ok (f v) := rfl

@[simp] theorem except_map_error {ε α β : Type} (f : α → β) (e : ε) :
    (Except.error e : Except ε α).map f = Except.error e := rfl

@[simp] theorem except_pure {ε α : Type} (v : α) :
    (pure v : Except ε α) = Except.ok v := rfl

@[simp] theorem lookupVal_nil (k : String) : lookupVal [] k = none := rfl

@[simp] theorem lookupVal_cons (k' : String) (v : Val) (rest : Args) (k : String) :
    lookupVal ((k', v) :: rest) k = if k' = k then some v else lookupVal rest k := rfl

theorem lookupVal_dset_self (a : Args) (k : String) (v : Val) :
    lookupVal (dset a k v) k = some v := by
  induction a with
  | nil => simp [dset, lookupVal]
  | cons hd tl ih =>
      obtain ⟨k', v'⟩ := hd
      by_cases h : k' = k
      · simp [dset, h, lookupVal]
      · simp [dset, h, lookupVal, ih]

theorem lookupVal_dset_ne (a : Args) (k : String) (v : Val) (k' : String)
    (h : k' ≠ k) : lookupVal (dset a k v) k' = lookupVal a k' := by
  have h' : k ≠ k' := Ne.symm h
  induction a with
  | nil => simp [dset, lookupVal, h']
  | cons hd tl ih =>
      obtain ⟨k₀, v₀⟩ := hd
      by_cases h₀ : k₀ = k
      · subst h₀
        simp [dset, lookupVal, h']
      · simp [dset, h₀, lookupVal, ih]

/-! ### Lookups in the caller's dictionary -/

@[simp] theorem lookupVal_toArgs_run_id (o : BuildOptions) :
    lookupVal o.toArgs "run_id" = o.run_id.map Val.vStr := by
  unfold BuildOptions.toArgs; cases o.run_id <;> simp [lookupVal]

@[simp] theorem lookupVal_toArgs_image_name (o : BuildOptions) :
    lookupVal o.toArgs "image_name" = some (.vStr o.image_name) := by
  unfold BuildOptions.toArgs; cases o.run_id <;> simp [lookupVal]

@[simp] theorem lookupVal_toArgs_project_id (o : BuildOptions) :
    lookupVal o.toArgs "project_id" = some (.vStr o.project_id) := by
  unfold BuildOptions.toArgs; cases o.run_id <;> simp [lookupVal]

@[simp] theorem lookupVal_toArgs_zone (o : BuildOptions) :
    lookupVal o.toArgs "zone" = some (.vStr o.zone) := by
  unfold BuildOptions.toArgs; cases o.run_id <;> simp [lookupVal]

@[simp] theorem lookupVal_toArgs_gcs_bucket (o : BuildOptions) :
    lookupVal o.toArgs "gcs_bucket" = some (.vStr o.gcs_bucket) := by
  unfold BuildOptions.toArgs; cases o.run_id <;> simp [lookupVal]

@[simp] theorem lookupVal_toArgs_family (o : BuildOptions) :
    lookupVal o.toArgs "family" = some (.vStr o.family) := by
  unfold BuildOptions.toArgs; cases o.run_id <;> simp [lookupVal]

@[simp] theorem lookupVal_toArgs_base_image (o : BuildOptions) :
    lookupVal o.toArgs "base_image" = some (.vStr o.base_image) := by
  unfold BuildOptions.toArgs; cases o.run_id <;> simp [lookupVal]

@[simp] theorem lookupVal_toArgs_base_image_family (o : BuildOptions) :
    lookupVal o.toArgs "base_image_family" = some (.vStr o.base_image_family) := by
  unfold BuildOptions.toArgs; cases o.run_id <;> simp [lookupVal]

@[simp] theorem lookupVal_toArgs_customization_script (o : BuildOptions) :
    lookupVal o.toArgs "customization_script" = some (.vStr o.customization_script) := by
  unfold BuildOptions.toArgs; cases o.run_id <;> simp [lookupVal]

@[simp] theorem lookupVal_toArgs_machine_type (o : BuildOptions) :
    lookupVal o.toArgs "machine_type" = some (.vStr o.machine_type) := by
  unfold BuildOptions.toArgs; cases o.run_id <;> simp [lookupVal]

@[simp] theorem lookupVal_toArgs_disk_size (o : BuildOptions) :
    lookupVal o.toArgs "disk_size" = some (.vStr o.disk_size) := by
  unfold BuildOptions.toArgs; cases o.run_id <;> simp [lookupVal]

@[simp] theorem lookupVal_toArgs_network (o : BuildOptions) :
    lookupVal o.toArgs "network" = some (.vStr o.network) := by
  unfold BuildOptions.toArgs; cases o.run_id <;> simp [lookupVal]

@[simp] theorem lookupVal_toArgs_subnetwork (o : BuildOptions) :
    lookupVal o.toArgs "subnetwork" = some (.vStr o.subnetwork) := by
  unfold BuildOptions.toArgs; cases o.run_id <;> simp [lookupVal]

@[simp] theorem lookupVal_toArgs_service_account (o : BuildOptions) :
    lookupVal o.toArgs "service_account" = some (.vStr o.service_account) := by
  unfold BuildOptions.toArgs; cases o.run_id <;> simp [lookupVal]

@[simp] theorem lookupVal_toArgs_accelerator (o : BuildOptions) :
    lookupVal o.toArgs "accelerator" = some (.vStr o.accelerator) := by
  unfold BuildOptions.toArgs; cases o.run_id <;> simp [lookupVal]

@[simp] theorem lookupVal_toArgs_storage_location (o : BuildOptions) :
    lookupVal o.toArgs "storage_location" = some (.vStr o.storage_location) := by
  unfold BuildOptions.toArgs; cases o.run_id <;> simp [lookupVal]

@[simp] theorem lookupVal_toArgs_metadata (o : BuildOptions) :
    lookupVal o.toArgs "metadata" = some (.vStr o.metadata) := by
  unfold BuildOptions.toArgs; cases o.run_id <;> simp [lookupVal]

@[simp] theorem lookupVal_toArgs_shutdown_timer (o : BuildOptions) :
    lookupVal o.toArgs "shutdown_timer_in_sec" = some (.vStr o.shutdown_timer_in_sec) := by
  unfold BuildOptions.toArgs; cases o.run_id <;> simp [lookupVal]

@[simp] theorem lookupVal_toArgs_no_external_ip (o : BuildOptions) :
    lookupVal o.toArgs "no_external_ip" = some (.vBool o.no_external_ip) := by
  unfold BuildOptions.toArgs; cases o.run_id <;> simp [lookupVal]

@[simp] theorem lookupVal_toArgs_extra_sources (o : BuildOptions) :
    lookupVal o.toArgs "extra_sources" = some (.vDict o.extra_sources) := by
  unfold BuildOptions.toArgs; cases o.run_id <;> simp [lookupVal]

/-! ### Pointwise specifications of the resolver steps -/

theorem stepRunId_present (now : PyDateTime) (a : Args) (v : Val)
    (h : lookupVal a "run_id" = some v) : stepRunId now a = .ok a := by
  simp [stepRunId, h]

theorem stepRunId_absent (now : PyDateTime) (a : Args) (v : Val)
    (h : lookupVal a "run_id" = none) (hi : lookupVal a "image_name" = some v) :
    stepRunId now a =
      .ok (dset a "run_id"
        (.vStr ("custom-image-" ++ pyStr v ++ "-" ++ strftimeTs now))) := by
  simp [stepRunId, h, formatToks, lookupVal_dset_ne, lookupVal_dset_self, hi,
    pyStr, String.append_assoc]

theorem stepBucketName_spec (a : Args) (g : Val)
    (h : lookupVal a "gcs_bucket" = some g) :
    stepBucketName a =
      .ok (dset a "bucket_name" (.vStr (pyReplace (pyStr g) "gs://" ""))) := by
  simp [stepBucketName, getArg, h]

theorem stepSourcesPath_spec (a : Args) (b r : Val)
    (hb : lookupVal a "bucket_name" = some b)
    (hr : lookupVal a "run_id" = some r) :
    stepSourcesPath a =
      .ok (dset a "custom_sources_path"
        (.vStr ("gs://" ++ pyStr b ++ "/" ++ pyStr r ++ "/sources"))) := by
  simp [stepSourcesPath, formatToks, hb, hr, String.append_assoc]

theorem stepSources_spec (a : Args) (c e : Val)
    (hc : lookupVal a "customization_script" = some c)
    (he : lookupVal a "extra_sources" = some e) :
    stepSources a =
      .ok (dset
        (dset a "sources_map_k"
          (.vStr (sourcesMapK (allSources (pyStr c) (asDict e)))))
        "sources_map_v"
        (.vStr (sourcesMapV (allSources (pyStr c) (asDict e))))) := by
  simp [stepSources, getArg, hc, he]

theorem stepLogDirs_spec (a : Args) (r b : Val)
    (hr : lookupVal a "run_id" = some r)
    (hb : lookupVal a "bucket_name" = some b) :
    stepLogDirs a =
      .ok (dset
        (dset a "log_dir" (.vStr ("/tmp/" ++ pyStr r ++ "/logs")))
        "gcs_log_dir"
        (.vStr ("gs://" ++ pyStr b ++ "/" ++ pyStr r ++ "/logs"))) := by
  simp [stepLogDirs, formatToks, hr, hb, lookupVal_dset_ne, String.append_assoc]

theorem stepNetwork_spec (a : Args) (sv nv : Val)
    (hs : lookupVal a "subnetwork" = some sv)
    (hn : lookupVal a "network" = some nv) :
    stepNetwork a = .ok (
      if pyTruthy sv then
        dset (dset a "subnetwork_flag" (.vStr ("--subnet=" ++ pyStr sv)))
          "network_flag" (.vStr "")
      else if pyTruthy nv then
        dset (dset a "network_flag" (.vStr ("--network=" ++ pyStr nv)))
          "subnetwork_flag" (.vStr "")
      else a) := by
  by_cases ht : pyTruthy sv <;> by_cases ht2 : pyTruthy nv <;>
    simp [stepNetwork, getArg, hs, hn, ht, ht2, formatToks]

theorem stepServiceAccount_spec (a : Args) (sv : Val)
    (hs : lookupVal a "service_account" = some sv) :
    stepServiceAccount a = .ok (
      if pyTruthy sv then
        dset a "service_account_flag"
          (.vStr ("--service-account=" ++ pyStr sv))
      else a) := by
  by_cases ht : pyTruthy sv <;>
    simp [stepServiceAccount, getArg, hs, ht, formatToks]

theorem stepNoExternalIp_spec (a : Args) (nv : Val)
    (h : lookupVal a "no_external_ip" = some nv) :
    stepNoExternalIp a =
      .ok (dset a "no_external_ip_flag"
        (.vStr (if pyTruthy nv then "--no-address" else ""))) := by
  simp [stepNoExternalIp, getArg, h]

theorem stepAccelerator_spec (a : Args) (av : Val)
    (h : lookupVal a "accelerator" = some av) :
    stepAccelerator a =
      .ok (dset a "accelerator_flag"
        (.vStr (if pyTruthy av then
          "--accelerator=" ++ pyStr av ++ " --maintenance-policy terminate"
        else ""))) := by
  by_cases ht : pyTruthy av <;>
    simp [stepAccelerator, getArg, h, ht, formatToks, String.append_assoc]

theorem stepStorageLocation_spec (a : Args) (sv : Val)
    (h : lookupVal a "storage_location" = some sv) :
    stepStorageLocation a =
      .ok (dset a "storage_location_flag"
        (.vStr (if pyTruthy sv then "--storage-location=" ++ pyStr sv
          else ""))) := by
  by_cases ht : pyTruthy sv <;>
    simp [stepStorageLocation, getArg, h, ht, formatToks]

theorem stepMetadata_spec (a : Args) (mv tv pv : Val)
    (hm : lookupVal a "metadata" = some mv)
    (ht : lookupVal a "shutdown_timer_in_sec" = some tv)
    (hp : lookupVal a "custom_sources_path" = some pv) :
    stepMetadata a =
      .ok (dset a "metadata_flag"
        (.vStr ("--metadata=shutdown-timer-in-sec=" ++ pyStr tv ++
          ",custom-sources-path=" ++ pyStr pv ++
          (if pyTruthy mv then "," ++ pyStr mv else "")))) := by
  by_cases hmt : pyTruthy mv <;>
    simp [stepMetadata, getArg, hm, ht, hp, hmt, metadataToksBase, formatToks,
      String.append_assoc]

/-! ### The resolver, stage by stage, on a caller dictionary -/

@[simp] theorem lookup_rArgs1_run_id (o : BuildOptions) (now : PyDateTime) :
    lookupVal (rArgs1 o now) "run_id" = some (.vStr (ridOf o now)) := by
  unfold rArgs1 ridOf
  cases hr : o.run_id <;> simp [lookupVal_dset_self, hr]

theorem lookup_rArgs1_other (o : BuildOptions) (now : PyDateTime) (k : String)
    (hk : k ≠ "run_id") : lookupVal (rArgs1 o now) k = lookupVal o.toArgs k := by
  unfold rArgs1
  cases hr : o.run_id <;> simp [lookupVal_dset_ne, hk]

theorem stage1 (o : BuildOptions) (now : PyDateTime) :
    stepRunId now o.toArgs = .ok (rArgs1 o now) := by
  cases hr : o.run_id with
  | some r =>
      rw [stepRunId_present now _ (Val.vStr r) (by simp [hr])]
      unfold rArgs1; rw [hr]
  | none =>
      rw [stepRunId_absent now _ (Val.vStr o.image_name) (by simp [hr]) (by simp)]
      unfold rArgs1 ridOf; rw [hr]; simp [pyStr]

theorem stage2 (o : BuildOptions) (now : PyDateTime) :
    stepBucketName (rArgs1 o now) = .ok (rArgs2 o now) := by
  rw [stepBucketName_spec _ (.vStr o.gcs_bucket)
    (by rw [lookup_rArgs1_other _ _ _ (by decide)]; simp)]
  unfold rArgs2 bnOf; simp [pyStr]

theorem stage3 (o : BuildOptions) (now : PyDateTime) :
    stepSourcesPath (rArgs2 o now) = .ok (rArgs3 o now) := by
  rw [stepSourcesPath_spec _ (.vStr (bnOf o)) (.vStr (ridOf o now))
    (by simp [rArgs2, lookupVal_dset_self])
    (by simp [rArgs2, lookupVal_dset_ne])]
  unfold rArgs3 cspOf; simp [pyStr, String.append_assoc]

theorem stage4 (o : BuildOptions) (now : PyDateTime) :
    stepSources (rArgs3 o now) = .ok (rArgs4 o now) := by
  rw [stepSources_spec _ (.vStr o.customization_script) (.vDict o.extra_sources)
    (by simp [rArgs3, rArgs2, lookupVal_dset_ne, lookup_rArgs1_other])
    (by simp [rArgs3, rArgs2, lookupVal_dset_ne, lookup_rArgs1_other])]
  unfold rArgs4; simp [pyStr, asDict]

theorem stage5 (o : BuildOptions) (now : PyDateTime) :
    stepLogDirs (rArgs4 o now) = .ok (rArgs5 o now) := by
  rw [stepLogDirs_spec _ (.vStr (ridOf o now)) (.vStr (bnOf o))
    (by simp [rArgs4, rArgs3, rArgs2, lookupVal_dset_ne])
    (by simp [rArgs4, rArgs3, rArgs2, lookupVal_dset_ne, lookupVal_dset_self])]
  unfold rArgs5; simp [pyStr, String.append_assoc]

theorem lookup_rArgs5_other (o : BuildOptions) (now : PyDateTime) (k : String)
    (h1 : k ≠ "run_id") (h2 : k ≠ "bucket_name")
    (h3 : k ≠ "custom_sources_path") (h4 : k ≠ "sources_map_k")
    (h5 : k ≠ "sources_map_v") (h6 : k ≠ "log_dir") (h7 : k ≠ "gcs_log_dir") :
    lookupVal (rArgs5 o now) k = lookupVal o.toArgs k := by
  simp [rArgs5, rArgs4, rArgs3, rArgs2, lookupVal_dset_ne,
    lookup_rArgs1_other, h1, h2, h3, h4, h5, h6, h7]

theorem stage6 (o : BuildOptions) (now : PyDateTime) :
    stepNetwork (rArgs5 o now) = .ok (rArgs6 o now) := by
  rw [stepNetwork_spec _ (.vStr o.subnetwork) (.vStr o.network)
    (by rw [lookup_rArgs5_other] <;> first | decide | simp)
    (by rw [lookup_rArgs5_other] <;> first | decide | simp)]
  unfold rArgs6; simp [pyStr]

theorem lookup_rArgs6_other (o : BuildOptions) (now : PyDateTime) (k : String)
    (h1 : k ≠ "subnetwork_flag") (h2 : k ≠ "network_flag") :
    lookupVal (rArgs6 o now) k = lookupVal (rArgs5 o now) k := by
  unfold rArgs6
  split_ifs <;> simp [lookupVal_dset_ne, h1, h2]

theorem stage7 (o : BuildOptions) (now : PyDateTime) :
    stepServiceAccount (rArgs6 o now) = .ok (rArgs7 o now) := by
  rw [stepServiceAccount_spec _ (.vStr o.service_account)
    (by rw [lookup_rArgs6_other _ _ _ (by decide) (by decide),
            lookup_rArgs5_other] <;> first | decide | simp)]
  unfold rArgs7; simp [pyStr]

theorem lookup_rArgs7_other (o : BuildOptions) (now : PyDateTime) (k : String)
    (h1 : k ≠ "service_account_flag") :
    lookupVal (rArgs7 o now) k = lookupVal (rArgs6 o now) k := by
  unfold rArgs7
  split_ifs <;> simp [lookupVal_dset_ne, h1]

theorem stage8 (o : BuildOptions) (now : PyDateTime) :
    stepNoExternalIp (rArgs7 o now) = .ok (rArgs8 o now) := by
  rw [stepNoExternalIp_spec _ (.vBool o.no_external_ip)
    (by rw [lookup_rArgs7_other _ _ _ (by decide),
            lookup_rArgs6_other _ _ _ (by decide) (by decide),
            lookup_rArgs5_other] <;> first | decide | simp)]
  unfold rArgs8; simp

theorem stage9 (o : BuildOptions) (now : PyDateTime) :
    stepAccelerator (rArgs8 o now) = .ok (rArgs9 o now) := by
  rw [stepAccelerator_spec _ (.vStr o.accelerator)
    (by rw [show rArgs8 o now = rArgs8 o now from rfl]
        simp only [rArgs8]
        rw [lookupVal_dset_ne _ _ _ _ (by decide),
            lookup_rArgs7_other _ _ _ (by decide),
            lookup_rArgs6_other _ _ _ (by decide) (by decide),
            lookup_rArgs5_other] <;> first | decide | simp)]
  unfold rArgs9; simp [pyStr]

theorem stage10 (o : BuildOptions) (now : PyDateTime) :
    stepStorageLocation (rArgs9 o now) = .ok (rArgs10 o now) := by
  rw [stepStorageLocation_spec _ (.vStr o.storage_location)
    (by simp only [rArgs9, rArgs8]
        rw [lookupVal_dset_ne _ _ _ _ (by decide),
            lookupVal_dset_ne _ _ _ _ (by decide),
            lookup_rArgs7_other _ _ _ (by decide),
            lookup_rArgs6_other _ _ _ (by decide) (by decide),
            lookup_rArgs5_other] <;> first | decide | simp)]
  unfold rArgs10; simp [pyStr]

theorem stage11 (o : BuildOptions) (now : PyDateTime) :
    stepMetadata (rArgs10 o now) = .ok (resolvedArgs o now) := by
  rw [stepMetadata_spec _ (.vStr o.metadata) (.vStr o.shutdown_timer_in_sec)
      (.vStr (cspOf o now))
    (by simp only [rArgs10, rArgs9, rArgs8]
        rw [lookupVal_dset_ne _ _ _ _ (by decide),
            lookupVal_dset_ne _ _ _ _ (by decide),
            lookupVal_dset_ne _ _ _ _ (by decide),
            lookup_rArgs7_other _ _ _ (by decide),
            lookup_rArgs6_other _ _ _ (by decide) (by decide),
            lookup_rArgs5_other] <;> first | decide | simp)
    (by simp only [rArgs10, rArgs9, rArgs8]
        rw [lookupVal_dset_ne _ _ _ _ (by decide),
            lookupVal_dset_ne _ _ _ _ (by decide),
            lookupVal_dset_ne _ _ _ _ (by decide),
            lookup_rArgs7_other _ _ _ (by decide),
            lookup_rArgs6_other _ _ _ (by decide) (by decide),
            lookup_rArgs5_other] <;> first | decide | simp)
    (by simp only [rArgs10, rArgs9, rArgs8]
        rw [lookupVal_dset_ne _ _ _ _ (by decide),
            lookupVal_dset_ne _ _ _ _ (by decide),
            lookupVal_dset_ne _ _ _ _ (by decide),
            lookup_rArgs7_other _ _ _ (by decide),
            lookup_rArgs6_other _ _ _ (by decide) (by decide)]
        simp [rArgs5, rArgs4, rArgs3, lookupVal_dset_ne, lookupVal_dset_self])]
  unfold resolvedArgs; simp [pyStr]

/-- `_init_args` on a caller dictionary always succeeds and produces exactly
the resolved dictionary described by `resolvedArgs`. -/
theorem init_args_toArgs (o : BuildOptions) (now : PyDateTime) :
    init_args o.toArgs now = .ok (resolvedArgs o now) := by
  simp only [init_args, stage1, except_ok_bind, stage2, stage3, stage4, stage5,
    stage6, stage7, stage8, stage9, stage10, stage11]

/-! ### Lookups in the resolved dictionary -/

/-- Keys the resolver never writes keep the caller's value — the frame of
`_init_args`. -/
theorem lookup_resolved_other (o : BuildOptions) (now : PyDateTime) (k : String)
    (h : ¬ k ∈ derivedKeys) :
    lookupVal (resolvedArgs o now) k = lookupVal o.toArgs k := by
  simp [derivedKeys] at h
  obtain ⟨h1, h2, h3, h4, h5, h6, h7, h8, h9, h10, h11, h12, h13, h14⟩ := h
  simp only [resolvedArgs, rArgs10, rArgs9, rArgs8]
  rw [lookupVal_dset_ne _ _ _ _ h14, lookupVal_dset_ne _ _ _ _ h13,
      lookupVal_dset_ne _ _ _ _ h12, lookupVal_dset_ne _ _ _ _ h11,
      lookup_rArgs7_other _ _ _ h10, lookup_rArgs6_other _ _ _ h8 h9,
      lookup_rArgs5_other _ _ _ h1 h2 h3 h4 h5 h6 h7]

@[simp] theorem lookup_resolved_image_name (o : BuildOptions) (now : PyDateTime) :
    lookupVal (resolvedArgs o now) "image_name" = some (.vStr o.image_name) := by
  rw [lookup_resolved_other _ _ _ (by decide)]; simp

@[simp] theorem lookup_resolved_project_id (o : BuildOptions) (now : PyDateTime) :
    lookupVal (resolvedArgs o now) "project_id" = some (.vStr o.project_id) := by
  rw [lookup_resolved_other _ _ _ (by decide)]; simp

@[simp] theorem lookup_resolved_zone (o : BuildOptions) (now : PyDateTime) :
    lookupVal (resolvedArgs o now) "zone" = some (.vStr o.zone) := by
  rw [lookup_resolved_other _ _ _ (by decide)]; simp

@[simp] theorem lookup_resolved_base_image (o : BuildOptions) (now : PyDateTime) :
    lookupVal (resolvedArgs o now) "base_image" = some (.vStr o.base_image) := by
  rw [lookup_resolved_other _ _ _ (by decide)]; simp

@[simp] theorem lookup_resolved_base_image_family (o : BuildOptions) (now : PyDateTime) :
    lookupVal (resolvedArgs o now) "base_image_family" = some (.vStr o.base_image_family) := by
  rw [lookup_resolved_other _ _ _ (by decide)]; simp

@[simp] theorem lookup_resolved_disk_size (o : BuildOptions) (now : PyDateTime) :
    lookupVal (resolvedArgs o now) "disk_size" = some (.vStr o.disk_size) := by
  rw [lookup_resolved_other _ _ _ (by decide)]; simp

@[simp] theorem lookup_resolved_machine_type (o : BuildOptions) (now : PyDateTime) :
    lookupVal (resolvedArgs o now) "machine_type" = some (.vStr o.machine_type) := by
  rw [lookup_resolved_other _ _ _ (by decide)]; simp

@[simp] theorem lookup_resolved_family (o : BuildOptions) (now : PyDateTime) :
    lookupVal (resolvedArgs o now) "family" = some (.vStr o.family) := by
  rw [lookup_resolved_other _ _ _ (by decide)]; simp

@[simp] theorem lookup_resolved_run_id (o : BuildOptions) (now : PyDateTime) :
    lookupVal (resolvedArgs o now) "run_id" = some (.vStr (ridOf o now)) := by
  simp only [resolvedArgs, rArgs10, rArgs9, rArgs8]
  rw [lookupVal_dset_ne _ _ _ _ (by decide), lookupVal_dset_ne _ _ _ _ (by decide),
      lookupVal_dset_ne _ _ _ _ (by decide), lookupVal_dset_ne _ _ _ _ (by decide),
      lookup_rArgs7_other _ _ _ (by decide),
      lookup_rArgs6_other _ _ _ (by decide) (by decide)]
  simp [rArgs5, rArgs4, rArgs3, rArgs2, lookupVal_dset_ne]

@[simp] theorem lookup_resolved_bucket_name (o : BuildOptions) (now : PyDateTime) :
    lookupVal (resolvedArgs o now) "bucket_name" = some (.vStr (bnOf o)) := by
  simp only [resolvedArgs, rArgs10, rArgs9, rArgs8]
  rw [lookupVal_dset_ne _ _ _ _ (by decide), lookupVal_dset_ne _ _ _ _ (by decide),
      lookupVal_dset_ne _ _ _ _ (by decide), lookupVal_dset_ne _ _ _ _ (by decide),
      lookup_rArgs7_other _ _ _ (by decide),
      lookup_rArgs6_other _ _ _ (by decide) (by decide)]
  simp [rArgs5, rArgs4, rArgs3, rArgs2, lookupVal_dset_ne, lookupVal_dset_self]

@[simp] theorem lookup_resolved_custom_sources_path (o : BuildOptions) (now : PyDateTime) :
    lookupVal (resolvedArgs o now) "custom_sources_path" = some (.vStr (cspOf o now)) := by
  simp only [resolvedArgs, rArgs10, rArgs9, rArgs8]
  rw [lookupVal_dset_ne _ _ _ _ (by decide), lookupVal_dset_ne _ _ _ _ (by decide),
      lookupVal_dset_ne _ _ _ _ (by decide), lookupVal_dset_ne _ _ _ _ (by decide),
      lookup_rArgs7_other _ _ _ (by decide),
      lookup_rArgs6_other _ _ _ (by decide) (by decide)]
  simp [rArgs5, rArgs4, rArgs3, lookupVal_dset_ne, lookupVal_dset_self]

@[simp] theorem lookup_resolved_sources_map_k (o : BuildOptions) (now : PyDateTime) :
    lookupVal (resolvedArgs o now) "sources_map_k" =
      some (.vStr (sourcesMapK (allSources o.customization_script o.extra_sources))) := by
  simp only [resolvedArgs, rArgs10, rArgs9, rArgs8]
  rw [lookupVal_dset_ne _ _ _ _ (by decide), lookupVal_dset_ne _ _ _ _ (by decide),
      lookupVal_dset_ne _ _ _ _ (by decide), lookupVal_dset_ne _ _ _ _ (by decide),
      lookup_rArgs7_other _ _ _ (by decide),
      lookup_rArgs6_other _ _ _ (by decide) (by decide)]
  simp [rArgs5, rArgs4, lookupVal_dset_ne, lookupVal_dset_self]

@[simp] theorem lookup_resolved_sources_map_v (o : BuildOptions) (now : PyDateTime) :
    lookupVal (resolvedArgs o now) "sources_map_v" =
      some (.vStr (sourcesMapV (allSources o.customization_script o.extra_sources))) := by
  simp only [resolvedArgs, rArgs10, rArgs9, rArgs8]
  rw [lookupVal_dset_ne _ _ _ _ (by decide), lookupVal_dset_ne _ _ _ _ (by decide),
      lookupVal_dset_ne _ _ _ _ (by decide), lookupVal_dset_ne _ _ _ _ (by decide),
      lookup_rArgs7_other _ _ _ (by decide),
      lookup_rArgs6_other _ _ _ (by decide) (by decide)]
  simp [rArgs5, rArgs4, lookupVal_dset_ne, lookupVal_dset_self]

@[simp] theorem lookup_resolved_log_dir (o : BuildOptions) (now : PyDateTime) :
    lookupVal (resolvedArgs o now) "log_dir" =
      some (.vStr ("/tmp/" ++ ridOf o now ++ "/logs")) := by
  simp only [resolvedArgs, rArgs10, rArgs9, rArgs8]
  rw [lookupVal_dset_ne _ _ _ _ (by decide), lookupVal_dset_ne _ _ _ _ (by decide),
      lookupVal_dset_ne _ _ _ _ (by decide), lookupVal_dset_ne _ _ _ _ (by decide),
      lookup_rArgs7_other _ _ _ (by decide),
      lookup_rArgs6_other _ _ _ (by decide) (by decide)]
  simp [rArgs5, lookupVal_dset_ne, lookupVal_dset_self]

@[simp] theorem lookup_resolved_gcs_log_dir (o : BuildOptions) (now : PyDateTime) :
    lookupVal (resolvedArgs o now) "gcs_log_dir" =
      some (.vStr ("gs://" ++ bnOf o ++ "/" ++ ridOf o now ++ "/logs")) := by
  simp only [resolvedArgs, rArgs10, rArgs9, rArgs8]
  rw [lookupVal_dset_ne _ _ _ _ (by decide), lookupVal_dset_ne _ _ _ _ (by decide),
      lookupVal_dset_ne _ _ _ _ (by decide), lookupVal_dset_ne _ _ _ _ (by decide),
      lookup_rArgs7_other _ _ _ (by decide),
      lookup_rArgs6_other _ _ _ (by decide) (by decide)]
  simp [rArgs5, lookupVal_dset_self]

@[simp] theorem lookup_resolved_no_external_ip_flag (o : BuildOptions) (now : PyDateTime) :
    lookupVal (resolvedArgs o now) "no_external_ip_flag" =
      some (.vStr (if pyTruthy (.vBool o.no_external_ip) then "--no-address" else "")) := by
  simp only [resolvedArgs, rArgs10, rArgs9]
  rw [lookupVal_dset_ne _ _ _ _ (by decide), lookupVal_dset_ne _ _ _ _ (by decide),
      lookupVal_dset_ne _ _ _ _ (by decide)]
  simp [rArgs8, lookupVal_dset_self]

@[simp] theorem lookup_resolved_accelerator_flag (o : BuildOptions) (now : PyDateTime) :
    lookupVal (resolvedArgs o now) "accelerator_flag" =
      some (.vStr (if pyTruthy (.vStr o.accelerator) then
        "--accelerator=" ++ o.accelerator ++ " --maintenance-policy terminate"
      else "")) := by
  simp only [resolvedArgs, rArgs10]
  rw [lookupVal_dset_ne _ _ _ _ (by decide), lookupVal_dset_ne _ _ _ _ (by decide)]
  simp [rArgs9, lookupVal_dset_self]

@[simp] theorem lookup_resolved_storage_location_flag (o : BuildOptions) (now : PyDateTime) :
    lookupVal (resolvedArgs o now) "storage_location_flag" =
      some (.vStr (if pyTruthy (.vStr o.storage_location) then
        "--storage-location=" ++ o.storage_location
      else "")) := by
  simp only [resolvedArgs]
  rw [lookupVal_dset_ne _ _ _ _ (by decide)]
  simp [rArgs10, lookupVal_dset_self]

@[simp] theorem lookup_resolved_metadata_flag (o : BuildOptions) (now : PyDateTime) :
    lookupVal (resolvedArgs o now) "metadata_flag" =
      some (.vStr ("--metadata=shutdown-timer-in-sec=" ++ o.shutdown_timer_in_sec ++
        ",custom-sources-path=" ++ cspOf o now ++
        (if pyTruthy (.vStr o.metadata) then "," ++ o.metadata else ""))) := by
  simp [resolvedArgs, lookupVal_dset_self]

@[simp] theorem lookup_toArgs_network_flag (o : BuildOptions) :
    lookupVal o.toArgs "network_flag" = none := by
  unfold BuildOptions.toArgs; cases o.run_id <;> simp [lookupVal]

@[simp] theorem lookup_toArgs_subnetwork_flag (o : BuildOptions) :
    lookupVal o.toArgs "subnetwork_flag" = none := by
  unfold BuildOptions.toArgs; cases o.run_id <;> simp [lookupVal]

@[simp] theorem lookup_toArgs_service_account_flag (o : BuildOptions) :
    lookupVal o.toArgs "service_account_flag" = none := by
  unfold BuildOptions.toArgs; cases o.run_id <;> simp [lookupVal]

/-- The `subnetwork_flag` entry of the resolved dictionary: set when
`subnetwork` or `network` is truthy, otherwise never written (and absent for
a caller dictionary, which has no such key). -/
theorem lookup_resolved_subnetwork_flag (o : BuildOptions) (now : PyDateTime) :
    lookupVal (resolvedArgs o now) "subnetwork_flag" =
      (if pyTruthy (.vStr o.subnetwork) then some (.vStr ("--subnet=" ++ o.subnetwork))
       else if pyTruthy (.vStr o.network) then some (.vStr "")
       else none) := by
  simp only [resolvedArgs, rArgs10, rArgs9, rArgs8]
  rw [lookupVal_dset_ne _ _ _ _ (by decide), lookupVal_dset_ne _ _ _ _ (by decide),
      lookupVal_dset_ne _ _ _ _ (by decide), lookupVal_dset_ne _ _ _ _ (by decide),
      lookup_rArgs7_other _ _ _ (by decide)]
  unfold rArgs6
  split_ifs <;>
    simp_all [lookupVal_dset_ne, lookupVal_dset_self,
      lookup_rArgs5_other _ _ "subnetwork_flag" (by decide) (by decide) (by decide)
        (by decide) (by decide) (by decide) (by decide)]

/-- The `network_flag` entry of the resolved dictionary. -/
theorem lookup_resolved_network_flag (o : BuildOptions) (now : PyDateTime) :
    lookupVal (resolvedArgs o now) "network_flag" =
      (if pyTruthy (.vStr o.subnetwork) then some (.vStr "")
       else if pyTruthy (.vStr o.network) then some (.vStr ("--network=" ++ o.network))
       else none) := by
  simp only [resolvedArgs, rArgs10, rArgs9, rArgs8]
  rw [lookupVal_dset_ne _ _ _ _ (by decide), lookupVal_dset_ne _ _ _ _ (by decide),
      lookupVal_dset_ne _ _ _ _ (by decide), lookupVal_dset_ne _ _ _ _ (by decide),
      lookup_rArgs7_other _ _ _ (by decide)]
  unfold rArgs6
  split_ifs <;>
    simp_all [lookupVal_dset_ne, lookupVal_dset_self,
      lookup_rArgs5_other _ _ "network_flag" (by decide) (by decide) (by decide)
        (by decide) (by decide) (by decide) (by decide)]

/-- The `service_account_flag` entry of the resolved dictionary. -/
theorem lookup_resolved_service_account_flag (o : BuildOptions) (now : PyDateTime) :
    lookupVal (resolvedArgs o now) "service_account_flag" =
      (if pyTruthy (.vStr o.service_account) then
        some (.vStr ("--service-account=" ++ o.service_account))
       else none) := by
  simp only [resolvedArgs, rArgs10, rArgs9, rArgs8]
  rw [lookupVal_dset_ne _ _ _ _ (by decide), lookupVal_dset_ne _ _ _ _ (by decide),
      lookupVal_dset_ne _ _ _ _ (by decide), lookupVal_dset_ne _ _ _ _ (by decide)]
  unfold rArgs7
  split_ifs <;>
    simp_all [lookupVal_dset_self,
      lookup_rArgs6_other _ _ "service_account_flag" (by decide) (by decide),
      lookup_rArgs5_other _ _ "service_account_flag" (by decide) (by decide)
        (by decide) (by decide) (by decide) (by decide) (by decide)]

/-! ### Frame lemmas: each step only writes its own keys -/

theorem getArg_ok (a : Args) (k : String) (v : Val) (h : getArg a k = .ok v) :
    lookupVal a k = some v := by
  unfold getArg at h
  cases hl : lookupVal a k <;> rw [hl] at h
  · cases h
  · cases h; rfl

theorem stepRunId_frame (now : PyDateTime) (a a' : Args)
    (h : stepRunId now a = .ok a') (k : String) (hk : k ≠ "run_id") :
    lookupVal a' k = lookupVal a k := by
  unfold stepRunId at h
  split at h
  · cases hf : formatToks (dset a "timestamp" (.vStr (strftimeTs now)))
        [.lit "custom-image-", .ph "image_name", .lit "-", .ph "timestamp"] <;>
      rw [hf] at h
    · cases h
    · simp only [except_map_ok] at h
      cases h
      rw [lookupVal_dset_ne _ _ _ _ hk]
  · cases h
    rfl

theorem stepBucketName_frame (a a' : Args) (h : stepBucketName a = .ok a')
    (k : String) (hk : k ≠ "bucket_name") :
    lookupVal a' k = lookupVal a k := by
  unfold stepBucketName at h
  cases hg : getArg a "gcs_bucket" <;> rw [hg] at h
  · cases h
  · simp only [except_map_ok] at h
    cases h
    rw [lookupVal_dset_ne _ _ _ _ hk]

theorem stepSourcesPath_frame (a a' : Args) (h : stepSourcesPath a = .ok a')
    (k : String) (hk : k ≠ "custom_sources_path") :
    lookupVal a' k = lookupVal a k := by
  unfold stepSourcesPath at h
  cases hf : formatToks a
      [.lit "gs://", .ph "bucket_name", .lit "/", .ph "run_id", .lit "/sources"] <;>
    rw [hf] at h
  · cases h
  · simp only [except_map_ok] at h
    cases h
    rw [lookupVal_dset_ne _ _ _ _ hk]

theorem stepSources_frame (a a' : Args) (h : stepSources a = .ok a')
    (k : String) (hk1 : k ≠ "sources_map_k") (hk2 : k ≠ "sources_map_v") :
    lookupVal a' k = lookupVal a k := by
  unfold stepSources at h
  cases hc : getArg a "customization_script" <;> rw [hc] at h
  · cases h
  cases he : getArg a "extra_sources" <;> rw [he] at h
  · cases h
  simp only [except_ok_bind] at h
  cases h
  rw [lookupVal_dset_ne _ _ _ _ hk2, lookupVal_dset_ne _ _ _ _ hk1]

theorem stepLogDirs_frame (a a' : Args) (h : stepLogDirs a = .ok a')
    (k : String) (hk1 : k ≠ "log_dir") (hk2 : k ≠ "gcs_log_dir") :
    lookupVal a' k = lookupVal a k := by
  unfold stepLogDirs at h
  cases hf : formatToks a [.lit "/tmp/", .ph "run_id", .lit "/logs"] <;> rw [hf] at h
  · cases h
  simp only [except_ok_bind] at h
  cases hg : formatToks (dset a "log_dir" (.vStr _))
      [.lit "gs://", .ph "bucket_name", .lit "/", .ph "run_id", .lit "/logs"] <;>
    rw [hg] at h
  · cases h
  simp only [except_ok_bind] at h
  cases h
  rw [lookupVal_dset_ne _ _ _ _ hk2, lookupVal_dset_ne _ _ _ _ hk1]

theorem stepNetwork_frame (a a' : Args) (h : stepNetwork a = .ok a')
    (k : String) (hk1 : k ≠ "subnetwork_flag") (hk2 : k ≠ "network_flag") :
    lookupVal a' k = lookupVal a k := by
  unfold stepNetwork at h
  cases hs : getArg a "subnetwork" <;> rw [hs] at h
  · cases h
  simp only [except_ok_bind] at h
  split at h
  · cases hf : formatToks a [.lit "--subnet=", .ph "subnetwork"] <;> rw [hf] at h
    · cases h
    simp only [except_ok_bind] at h
    cases h
    rw [lookupVal_dset_ne _ _ _ _ hk2, lookupVal_dset_ne _ _ _ _ hk1]
  · cases hn : getArg a "network" <;> rw [hn] at h
    · cases h
    simp only [except_ok_bind] at h
    split at h
    · cases hf : formatToks a [.lit "--network=", .ph "network"] <;> rw [hf] at h
      · cases h
      simp only [except_ok_bind] at h
      cases h
      rw [lookupVal_dset_ne _ _ _ _ hk1, lookupVal_dset_ne _ _ _ _ hk2]
    · cases h
      rfl

theorem stepServiceAccount_frame (a a' : Args) (h : stepServiceAccount a = .ok a')
    (k : String) (hk : k ≠ "service_account_flag") :
    lookupVal a' k = lookupVal a k := by
  unfold stepServiceAccount at h
  cases hs : getArg a "service_account" <;> rw [hs] at h
  · cases h
  simp only [except_ok_bind] at h
  split at h
  · cases hf : formatToks a [.lit "--service-account=", .ph "service_account"] <;>
      rw [hf] at h
    · cases h
    simp only [except_ok_bind] at h
    cases h
    rw [lookupVal_dset_ne _ _ _ _ hk]
  · cases h
    rfl

theorem stepNoExternalIp_frame (a a' : Args) (h : stepNoExternalIp a = .ok a')
    (k : String) (hk : k ≠ "no_external_ip_flag") :
    lookupVal a' k = lookupVal a k := by
  unfold stepNoExternalIp at h
  cases hs : getArg a "no_external_ip" <;> rw [hs] at h
  · cases h
  simp only [except_ok_bind] at h
  cases h
  rw [lookupVal_dset_ne _ _ _ _ hk]

theorem stepAccelerator_frame (a a' : Args) (h : stepAccelerator a = .ok a')
    (k : String) (hk : k ≠ "accelerator_flag") :
    lookupVal a' k = lookupVal a k := by
  unfold stepAccelerator at h
  cases hs : getArg a "accelerator" <;> rw [hs] at h
  · cases h
  simp only [except_ok_bind] at h
  split at h
  · cases hf : formatToks a
        [.lit "--accelerator=", .ph "accelerator",
         .lit " --maintenance-policy terminate"] <;> rw [hf] at h
    · cases h
    simp only [except_ok_bind] at h
    cases h
    rw [lookupVal_dset_ne _ _ _ _ hk]
  · cases h
    rw [lookupVal_dset_ne _ _ _ _ hk]

theorem stepStorageLocation_frame (a a' : Args) (h : stepStorageLocation a = .ok a')
    (k : String) (hk : k ≠ "storage_location_flag") :
    lookupVal a' k = lookupVal a k := by
  unfold stepStorageLocation at h
  cases hs : getArg a "storage_location" <;> rw [hs] at h
  · cases h
  simp only [except_ok_bind] at h
  split at h
  · cases hf : formatToks a [.lit "--storage-location=", .ph "storage_location"] <;>
      rw [hf] at h
    · cases h
    simp only [except_ok_bind] at h
    cases h
    rw [lookupVal_dset_ne _ _ _ _ hk]
  · cases h
    rw [lookupVal_dset_ne _ _ _ _ hk]

theorem stepMetadata_frame (a a' : Args) (h : stepMetadata a = .ok a')
    (k : String) (hk : k ≠ "metadata_flag") :
    lookupVal a' k = lookupVal a k := by
  unfold stepMetadata at h
  cases hs : getArg a "metadata" <;> rw [hs] at h
  · cases h
  simp only [except_ok_bind] at h
  cases hf : formatToks a
      (if pyTruthy _ then metadataToksBase ++ [.lit ",", .ph "metadata"]
       else metadataToksBase) <;> rw [hf] at h
  · cases h
  simp only [except_ok_bind] at h
  cases h
  rw [lookupVal_dset_ne _ _ _ _ hk]

/-- Decomposition of a successful resolution into its eleven steps. -/
theorem init_args_ok_decompose (args a' : Args) (now : PyDateTime)
    (h : init_args args now = .ok a') :
    ∃ a1 a2 a3 a4 a5 a6 a7 a8 a9 a10,
      stepRunId now args = .ok a1 ∧ stepBucketName a1 = .ok a2 ∧
      stepSourcesPath a2 = .ok a3 ∧ stepSources a3 = .ok a4 ∧
      stepLogDirs a4 = .ok a5 ∧ stepNetwork a5 = .ok a6 ∧
      stepServiceAccount a6 = .ok a7 ∧ stepNoExternalIp a7 = .ok a8 ∧
      stepAccelerator a8 = .ok a9 ∧ stepStorageLocation a9 = .ok a10 ∧
      stepMetadata a10 = .ok a' := by
  unfold init_args at h
  cases h1 : stepRunId now args with
  | error e => rw [h1] at h; cases h
  | ok a1 =>
    rw [h1] at h
    simp only [except_ok_bind] at h
    cases h2 : stepBucketName a1 with
    | error e => rw [h2] at h; cases h
    | ok a2 =>
      rw [h2] at h
      simp only [except_ok_bind] at h
      cases h3 : stepSourcesPath a2 with
      | error e => rw [h3] at h; cases h
      | ok a3 =>
        rw [h3] at h
        simp only [except_ok_bind] at h
        cases h4 : stepSources a3 with
        | error e => rw [h4] at h; cases h
        | ok a4 =>
          rw [h4] at h
          simp only [except_ok_bind] at h
          cases h5 : stepLogDirs a4 with
          | error e => rw [h5] at h; cases h
          | ok a5 =>
            rw [h5] at h
            simp only [except_ok_bind] at h
            cases h6 : stepNetwork a5 with
            | error e => rw [h6] at h; cases h
            | ok a6 =>
              rw [h6] at h
              simp only [except_ok_bind] at h
              cases h7 : stepServiceAccount a6 with
              | error e => rw [h7] at h; cases h
              | ok a7 =>
                rw [h7] at h
                simp only [except_ok_bind] at h
                cases h8 : stepNoExternalIp a7 with
                | error e => rw [h8] at h; cases h
                | ok a8 =>
                  rw [h8] at h
                  simp only [except_ok_bind] at h
                  cases h9 : stepAccelerator a8 with
                  | error e => rw [h9] at h; cases h
                  | ok a9 =>
                    rw [h9] at h
                    simp only [except_ok_bind] at h
                    cases h10 : stepStorageLocation a9 with
                    | error e => rw [h10] at h; cases h
                    | ok a10 =>
                      rw [h10] at h
                      simp only [except_ok_bind] at h
                      exact ⟨a1, a2, a3, a4, a5, a6, a7, a8, a9, a10, rfl, h2, h3, h4, h5, h6, h7, h8, h9, h10, h⟩

/-- Frame of the whole resolver: keys outside `derivedKeys` keep the caller's
value, on an arbitrary dictionary. -/
theorem init_args_frame (args a' : Args) (now : PyDateTime)
    (h : init_args args now = .ok a') (k : String) (hk : ¬ k ∈ derivedKeys) :
    lookupVal a' k = lookupVal args k := by
  simp [derivedKeys] at hk
  obtain ⟨n1, n2, n3, n4, n5, n6, n7, n8, n9, n10, n11, n12, n13, n14⟩ := hk
  obtain ⟨a1, a2, a3, a4, a5, a6, a7, a8, a9, a10, h1, h2, h3, h4, h5, h6, h7,
    h8, h9, h10, h11⟩ := init_args_ok_decompose args a' now h
  rw [stepMetadata_frame _ _ h11 _ n14,
    stepStorageLocation_frame _ _ h10 _ n13,
    stepAccelerator_frame _ _ h9 _ n12,
    stepNoExternalIp_frame _ _ h8 _ n11,
    stepServiceAccount_frame _ _ h7 _ n10,
    stepNetwork_frame _ _ h6 _ n8 n9,
    stepLogDirs_frame _ _ h5 _ n6 n7,
    stepSources_frame _ _ h4 _ n4 n5,
    stepSourcesPath_frame _ _ h3 _ n3,
    stepBucketName_frame _ _ h2 _ n2,
    stepRunId_frame _ _ _ h1 _ n1]

theorem formatToks_append (args : Args) (xs ys : List Tok) :
    formatToks args (xs ++ ys) =
      (formatToks args xs).bind
        (fun sx => (formatToks args ys).map (fun sy => sx ++ sy)) := by
  induction xs with
  | nil =>
      cases hy : formatToks args ys <;>
        simp [formatToks, Except.map, Except.bind, hy]
  | cons hd tl ih =>
      cases hd with
      | lit s =>
          cases hx : formatToks args tl <;> cases hy : formatToks args ys <;>
            simp_all [formatToks, Except.map, Except.bind, String.append_assoc]
      | ph k =>
          cases hlk : lookupVal args k with
          | none => simp [formatToks, hlk, Except.bind]
          | some v =>
              cases hx : formatToks args tl <;> cases hy : formatToks args ys <;>
                simp_all [formatToks, Except.map, Except.bind, String.append_assoc]

/-- If formatting succeeded, every placeholder of the token list had a value. -/
theorem formatToks_ok_keys (args : Args) (toks : List Tok) (s : String)
    (h : formatToks args toks = .ok s) (k : String) (hk : Tok.ph k ∈ toks) :
    (lookupVal args k).isSome := by
  induction toks generalizing s with
  | nil => cases hk
  | cons hd tl ih =>
      cases hd with
      | lit l =>
          rcases List.mem_cons.mp hk with h' | h'
          · cases h'
          · simp only [formatToks] at h
            cases hfmt : formatToks args tl with
            | error e => rw [hfmt] at h; cases h
            | ok t => exact ih t hfmt h'
      | ph k' =>
          simp only [formatToks] at h
          cases hlk : lookupVal args k' with
          | none => rw [hlk] at h; cases h
          | some v =>
              rcases List.mem_cons.mp hk with h' | h'
              · cases h'; simp [hlk]
              · rw [hlk] at h
                cases hfmt : formatToks args tl with
                | error e => rw [hfmt] at h; cases h
                | ok t => exact ih t hfmt h'

/-! ### Decomposing a successful rendering -/

theorem formatToks_append_ok (args : Args) (xs ys : List Tok) (s : String)
    (h : formatToks args (xs ++ ys) = .ok s) :
    ∃ sx sy, formatToks args xs = .ok sx ∧ formatToks args ys = .ok sy ∧
      s = sx ++ sy := by
  rw [formatToks_append] at h
  cases hx : formatToks args xs <;> rw [hx] at h
  · cases h
  cases hy : formatToks args ys <;> rw [hy] at h
  · cases h
  refine ⟨_, _, rfl, rfl, ?_⟩
  cases h
  rfl

/-- A successful render of the whole template splits into the renders of its
six chunks. -/
theorem render_decompose (a : Args) (s : String)
    (h : formatToks a tmplToks = .ok s) :
    ∃ s1 s2 s3 s4 s5 s6,
      formatToks a tmplHead = .ok s1 ∧
      formatToks a tmplDiskIf = .ok s2 ∧
      formatToks a tmplMid1 = .ok s3 ∧
      formatToks a tmplResultCheck = .ok s4 ∧
      formatToks a tmplMid2 = .ok s5 ∧
      formatToks a tmplTail = .ok s6 ∧
      s = s1 ++ (s2 ++ (s3 ++ (s4 ++ (s5 ++ s6)))) := by
  unfold tmplToks at h
  rw [List.append_assoc, List.append_assoc, List.append_assoc,
    List.append_assoc] at h
  obtain ⟨s1, t1, h1, ht1, rfl⟩ := formatToks_append_ok _ _ _ _ h
  obtain ⟨s2, t2, h2, ht2, rfl⟩ := formatToks_append_ok _ _ _ _ ht1
  obtain ⟨s3, t3, h3, ht3, rfl⟩ := formatToks_append_ok _ _ _ _ ht2
  obtain ⟨s4, t4, h4, ht4, rfl⟩ := formatToks_append_ok _ _ _ _ ht3
  obtain ⟨s5, s6, h5, h6, rfl⟩ := formatToks_append_ok _ _ _ _ ht4
  exact ⟨s1, s2, s3, s4, s5, s6, h1, h2, h3, h4, h5, h6, rfl⟩

/-- The rendered disk-source conditional of the generated script. -/
theorem render_diskIf (o : BuildOptions) (now : PyDateTime) :
    formatToks (resolvedArgs o now) tmplDiskIf = .ok
      ("  if [[ '" ++ o.base_image_family ++ "' = '' ||  '" ++
        o.base_image_family ++
        "' = 'None' ]]; then\n     IMAGE_SOURCE=\"--image=" ++ o.base_image ++
        "\"\n  else\n     IMAGE_SOURCE=\"--image-family=" ++
        o.base_image_family ++ "\"\n  fi\n") := by
  simp [tmplDiskIf, formatToks, pyStr, String.append_assoc]

/-- The rendered result-detection step of the generated script (both `grep`
commands read `<log_dir>/startup-script.log` for the resolved log directory). -/
theorem render_resultCheck (o : BuildOptions) (now : PyDateTime) :
    formatToks (resolvedArgs o now) tmplResultCheck = .ok
      ("  echo 'Checking customization script result.'\n  if grep 'BuildFailed:' " ++
        ("/tmp/" ++
          (ridOf o now ++
            ("/logs" ++
              ("/startup-script.log; then\n    echo -e \"$\x7bRED\x7dCustomization script failed.$\x7bNC\x7d\"\n    exit 1\n  elif grep 'BuildSucceeded:' " ++
                ("/tmp/" ++
                  (ridOf o now ++
                    "/logs/startup-script.log; then\n    echo -e \"$\x7bGREEN\x7dCustomization script succeeded.$\x7bNC\x7d\"\n  else\n    echo 'Unable to determine the customization script result.'\n    exit 1\n  fi\n"))))))) := by
  simp [tmplResultCheck, formatToks, pyStr, String.append_assoc]

/-- The rendered tail of the generated script: the trap installation, then
`mkdir`, then the `main` invocation — nothing else follows. -/
theorem render_tail (o : BuildOptions) (now : PyDateTime) :
    formatToks (resolvedArgs o now) tmplTail = .ok
      ("trap exit_handler EXIT\nmkdir -p " ++
        ("/tmp/" ++
          (ridOf o now ++
            ("/logs" ++
              ("\nmain \"$@\" 2>&1 | tee " ++
                ("/tmp/" ++ (ridOf o now ++ "/logs/workflow.log\n"))))))) := by
  simp [tmplTail, formatToks, pyStr, String.append_assoc]

/-- The rendered head of the template never fails on a resolved dictionary. -/
theorem render_head_ok (o : BuildOptions) (now : PyDateTime) :
    ∃ s, formatToks (resolvedArgs o now) tmplHead = .ok s := by
  simp [tmplHead, formatToks, pyStr]

/-- With both `subnetwork` and `network` empty, rendering the VM-creation
chunk raises `KeyError("network_flag")`: the flag was never assigned. -/
theorem render_mid1_error (o : BuildOptions) (now : PyDateTime)
    (hsub : o.subnetwork = "") (hnet : o.network = "") :
    formatToks (resolvedArgs o now) tmplMid1 = .error "network_flag" := by
  simp [tmplMid1, formatToks, pyStr, lookup_resolved_network_flag, pyTruthy,
    hsub, hnet]

/-- Every digit emitted by the zero-padded strftime fields is a decimal digit. -/
theorem digitChar_mod_isDigit (n : Nat) : (Nat.digitChar (n % 10)).isDigit = true := by
  have h : n % 10 < 10 := Nat.mod_lt _ (by omega)
  set k := n % 10 with hk
  interval_cases k <;> decide

/-- The derived timestamp always consists of eight digits, a hyphen, and six
digits (fourteen digits in all). -/
theorem strftime_pattern (t : PyDateTime) :
    ∃ d tmd, (strftimeTs t).data = d ++ '-' :: tmd ∧ d.length = 8 ∧
      tmd.length = 6 ∧ d.all Char.isDigit ∧ tmd.all Char.isDigit := by
  refine ⟨fourDigits t.year ++ twoDigits t.month ++ twoDigits t.day,
    twoDigits t.hour ++ twoDigits t.minute ++ twoDigits t.second, ?_, ?_, ?_, ?_, ?_⟩
  · simp [strftimeTs]
  · simp [fourDigits, twoDigits]
  · simp [twoDigits]
  · simp [fourDigits, twoDigits, digitChar_mod_isDigit]
  · simp [twoDigits, digitChar_mod_isDigit]

/-! ### Resolution succeeds on any dictionary supplying the fields it reads -/

theorem lookupVal_removeKey (a : Args) (F k : String) :
    lookupVal (removeKey a F) k = if k = F then none else lookupVal a k := by
  induction a with
  | nil => simp [removeKey, lookupVal]
  | cons hd tl ih =>
      obtain ⟨k', v⟩ := hd
      by_cases hk' : k' = F
      · subst hk'
        have hdrop : removeKey ((k', v) :: tl) k' = removeKey tl k' := by
          simp [removeKey, List.filter]
        rw [hdrop, ih]
        by_cases hkF : k = k'
        · simp [hkF]
        · have hne : k' ≠ k := fun h => hkF h.symm
          simp [hkF, lookupVal, hne]
      · have hkeep : removeKey ((k', v) :: tl) F = (k', v) :: removeKey tl F := by
          simp [removeKey, List.filter, hk']
        rw [hkeep]
        by_cases h2 : k' = k
        · subst h2
          simp [lookupVal, hk']
        · simp [lookupVal, h2, ih]

theorem stepRunId_writes (now : PyDateTime) (a a' : Args)
    (h : stepRunId now a = .ok a') : (lookupVal a' "run_id").isSome := by
  cases hl : lookupVal a "run_id" with
  | some v =>
      rw [stepRunId_present now a v hl] at h
      cases h
      simp [hl]
  | none =>
      unfold stepRunId at h
      rw [hl] at h
      simp only [Option.isNone_none, if_true] at h
      cases hf : formatToks (dset a "timestamp" (.vStr (strftimeTs now)))
          [.lit "custom-image-", .ph "image_name", .lit "-", .ph "timestamp"] <;>
        rw [hf] at h
      · cases h
      · simp only [except_map_ok] at h
        cases h
        simp [lookupVal_dset_self]

theorem stepBucketName_writes (a a' : Args) (h : stepBucketName a = .ok a') :
    (lookupVal a' "bucket_name").isSome := by
  unfold stepBucketName at h
  cases hg : getArg a "gcs_bucket" <;> rw [hg] at h
  · cases h
  · simp only [except_map_ok] at h
    cases h
    simp [lookupVal_dset_self]

theorem stepSourcesPath_writes (a a' : Args) (h : stepSourcesPath a = .ok a') :
    (lookupVal a' "custom_sources_path").isSome := by
  unfold stepSourcesPath at h
  cases hf : formatToks a
      [.lit "gs://", .ph "bucket_name", .lit "/", .ph "run_id", .lit "/sources"] <;>
    rw [hf] at h
  · cases h
  · simp only [except_map_ok] at h
    cases h
    simp [lookupVal_dset_self]

theorem stepRunId_ok (now : PyDateTime) (a : Args)
    (h : (lookupVal a "run_id").isSome ∨ (lookupVal a "image_name").isSome) :
    ∃ a', stepRunId now a = .ok a' := by
  cases hr : lookupVal a "run_id" with
  | some v => exact ⟨a, stepRunId_present now a v hr⟩
  | none =>
      rcases h with h | h
      · rw [hr] at h; cases h
      · obtain ⟨v, hv⟩ := Option.isSome_iff_exists.mp h
        exact ⟨_, stepRunId_absent now a v hr hv⟩

theorem stepBucketName_ok (a : Args) (h : (lookupVal a "gcs_bucket").isSome) :
    ∃ a', stepBucketName a = .ok a' := by
  obtain ⟨v, hv⟩ := Option.isSome_iff_exists.mp h
  exact ⟨_, stepBucketName_spec a v hv⟩

theorem stepSourcesPath_ok (a : Args)
    (hb : (lookupVal a "bucket_name").isSome)
    (hr : (lookupVal a "run_id").isSome) :
    ∃ a', stepSourcesPath a = .ok a' := by
  obtain ⟨b, hbv⟩ := Option.isSome_iff_exists.mp hb
  obtain ⟨r, hrv⟩ := Option.isSome_iff_exists.mp hr
  exact ⟨_, stepSourcesPath_spec a b r hbv hrv⟩

theorem stepSources_ok (a : Args)
    (hc : (lookupVal a "customization_script").isSome)
    (he : (lookupVal a "extra_sources").isSome) :
    ∃ a', stepSources a = .ok a' := by
  obtain ⟨c, hcv⟩ := Option.isSome_iff_exists.mp hc
  obtain ⟨e, hev⟩ := Option.isSome_iff_exists.mp he
  exact ⟨_, stepSources_spec a c e hcv hev⟩

theorem stepLogDirs_ok (a : Args)
    (hr : (lookupVal a "run_id").isSome)
    (hb : (lookupVal a "bucket_name").isSome) :
    ∃ a', stepLogDirs a = .ok a' := by
  obtain ⟨r, hrv⟩ := Option.isSome_iff_exists.mp hr
  obtain ⟨b, hbv⟩ := Option.isSome_iff_exists.mp hb
  exact ⟨_, stepLogDirs_spec a r b hrv hbv⟩

theorem stepNetwork_ok (a : Args)
    (hs : (lookupVal a "subnetwork").isSome)
    (hn : (lookupVal a "network").isSome) :
    ∃ a', stepNetwork a = .ok a' := by
  obtain ⟨sv, hsv⟩ := Option.isSome_iff_exists.mp hs
  obtain ⟨nv, hnv⟩ := Option.isSome_iff_exists.mp hn
  exact ⟨_, stepNetwork_spec a sv nv hsv hnv⟩

theorem stepServiceAccount_ok (a : Args)
    (h : (lookupVal a "service_account").isSome) :
    ∃ a', stepServiceAccount a = .ok a' := by
  obtain ⟨v, hv⟩ := Option.isSome_iff_exists.mp h
  exact ⟨_, stepServiceAccount_spec a v hv⟩

theorem stepNoExternalIp_ok (a : Args)
    (h : (lookupVal a "no_external_ip").isSome) :
    ∃ a', stepNoExternalIp a = .ok a' := by
  obtain ⟨v, hv⟩ := Option.isSome_iff_exists.mp h
  exact ⟨_, stepNoExternalIp_spec a v hv⟩

theorem stepAccelerator_ok (a : Args)
    (h : (lookupVal a "accelerator").isSome) :
    ∃ a', stepAccelerator a = .ok a' := by
  obtain ⟨v, hv⟩ := Option.isSome_iff_exists.mp h
  exact ⟨_, stepAccelerator_spec a v hv⟩

theorem stepStorageLocation_ok (a : Args)
    (h : (lookupVal a "storage_location").isSome) :
    ∃ a', stepStorageLocation a = .ok a' := by
  obtain ⟨v, hv⟩ := Option.isSome_iff_exists.mp h
  exact ⟨_, stepStorageLocation_spec a v hv⟩

theorem stepMetadata_ok (a : Args)
    (hm : (lookupVal a "metadata").isSome)
    (ht : (lookupVal a "shutdown_timer_in_sec").isSome)
    (hp : (lookupVal a "custom_sources_path").isSome) :
    ∃ a', stepMetadata a = .ok a' := by
  obtain ⟨m, hmv⟩ := Option.isSome_iff_exists.mp hm
  obtain ⟨t, htv⟩ := Option.isSome_iff_exists.mp ht
  obtain ⟨p, hpv⟩ := Option.isSome_iff_exists.mp hp
  exact ⟨_, stepMetadata_spec a m t p hmv htv hpv⟩

/-- On any dictionary supplying every field the resolver reads, `_init_args`
succeeds; the resolved dictionary has a `run_id` and keeps the caller's value
at every non-derived key. -/
theorem init_args_ok_general (args : Args) (now : PyDateTime)
    (h1 : (lookupVal args "run_id").isSome ∨ (lookupVal args "image_name").isSome)
    (h2 : (lookupVal args "gcs_bucket").isSome)
    (h3 : (lookupVal args "customization_script").isSome)
    (h4 : (lookupVal args "extra_sources").isSome)
    (h5 : (lookupVal args "subnetwork").isSome)
    (h6 : (lookupVal args "network").isSome)
    (h7 : (lookupVal args "service_account").isSome)
    (h8 : (lookupVal args "no_external_ip").isSome)
    (h9 : (lookupVal args "accelerator").isSome)
    (h10 : (lookupVal args "storage_location").isSome)
    (h11 : (lookupVal args "metadata").isSome)
    (h12 : (lookupVal args "shutdown_timer_in_sec").isSome) :
    ∃ a', init_args args now = .ok a' ∧
      (lookupVal a' "run_id").isSome ∧
      (∀ k, ¬ k ∈ derivedKeys → lookupVal a' k = lookupVal args k) := by
  obtain ⟨a1, hs1⟩ := stepRunId_ok now args h1
  have f1 : ∀ k, k ≠ "run_id" → lookupVal a1 k = lookupVal args k :=
    fun k hk => stepRunId_frame now args a1 hs1 k hk
  have r1 : (lookupVal a1 "run_id").isSome := stepRunId_writes now args a1 hs1
  obtain ⟨a2, hs2⟩ := stepBucketName_ok a1 (by rw [f1 _ (by decide)]; exact h2)
  have f2 : ∀ k, k ≠ "bucket_name" → lookupVal a2 k = lookupVal a1 k :=
    fun k hk => stepBucketName_frame a1 a2 hs2 k hk
  have b2 : (lookupVal a2 "bucket_name").isSome := stepBucketName_writes a1 a2 hs2
  have r2 : (lookupVal a2 "run_id").isSome := by rw [f2 _ (by decide)]; exact r1
  obtain ⟨a3, hs3⟩ := stepSourcesPath_ok a2 b2 r2
  have f3 : ∀ k, k ≠ "custom_sources_path" → lookupVal a3 k = lookupVal a2 k :=
    fun k hk => stepSourcesPath_frame a2 a3 hs3 k hk
  have p3 : (lookupVal a3 "custom_sources_path").isSome :=
    stepSourcesPath_writes a2 a3 hs3
  have r3 : (lookupVal a3 "run_id").isSome := by rw [f3 _ (by decide)]; exact r2
  have b3 : (lookupVal a3 "bucket_name").isSome := by rw [f3 _ (by decide)]; exact b2
  obtain ⟨a4, hs4⟩ := stepSources_ok a3
    (by rw [f3 _ (by decide), f2 _ (by decide), f1 _ (by decide)]; exact h3)
    (by rw [f3 _ (by decide), f2 _ (by decide), f1 _ (by decide)]; exact h4)
  have f4 : ∀ k, k ≠ "sources_map_k" → k ≠ "sources_map_v" →
      lookupVal a4 k = lookupVal a3 k :=
    fun k hk1 hk2 => stepSources_frame a3 a4 hs4 k hk1 hk2
  have r4 : (lookupVal a4 "run_id").isSome := by
    rw [f4 _ (by decide) (by decide)]; exact r3
  have b4 : (lookupVal a4 "bucket_name").isSome := by
    rw [f4 _ (by decide) (by decide)]; exact b3
  have p4 : (lookupVal a4 "custom_sources_path").isSome := by
    rw [f4 _ (by decide) (by decide)]; exact p3
  obtain ⟨a5, hs5⟩ := stepLogDirs_ok a4 r4 b4
  have f5 : ∀ k, k ≠ "log_dir" → k ≠ "gcs_log_dir" →
      lookupVal a5 k = lookupVal a4 k :=
    fun k hk1 hk2 => stepLogDirs_frame a4 a5 hs5 k hk1 hk2
  have r5 : (lookupVal a5 "run_id").isSome := by
    rw [f5 _ (by decide) (by decide)]; exact r4
  have p5 : (lookupVal a5 "custom_sources_path").isSome := by
    rw [f5 _ (by decide) (by decide)]; exact p4
  obtain ⟨a6, hs6⟩ := stepNetwork_ok a5
    (by rw [f5 _ (by decide) (by decide), f4 _ (by decide) (by decide),
          f3 _ (by decide), f2 _ (by decide), f1 _ (by decide)]; exact h5)
    (by rw [f5 _ (by decide) (by decide), f4 _ (by decide) (by decide),
          f3 _ (by decide), f2 _ (by decide), f1 _ (by decide)]; exact h6)
  have f6 : ∀ k, k ≠ "subnetwork_flag" → k ≠ "network_flag" →
      lookupVal a6 k = lookupVal a5 k :=
    fun k hk1 hk2 => stepNetwork_frame a5 a6 hs6 k hk1 hk2
  have r6 : (lookupVal a6 "run_id").isSome := by
    rw [f6 _ (by decide) (by decide)]; exact r5
  have p6 : (lookupVal a6 "custom_sources_path").isSome := by
    rw [f6 _ (by decide) (by decide)]; exact p5
  obtain ⟨a7, hs7⟩ := stepServiceAccount_ok a6
    (by rw [f6 _ (by decide) (by decide), f5 _ (by decide) (by decide),
          f4 _ (by decide) (by decide), f3 _ (by decide), f2 _ (by decide),
          f1 _ (by decide)]; exact h7)
  have f7 : ∀ k, k ≠ "service_account_flag" → lookupVal a7 k = lookupVal a6 k :=
    fun k hk => stepServiceAccount_frame a6 a7 hs7 k hk
  have r7 : (lookupVal a7 "run_id").isSome := by rw [f7 _ (by decide)]; exact r6
  have p7 : (lookupVal a7 "custom_sources_path").isSome := by
    rw [f7 _ (by decide)]; exact p6
  obtain ⟨a8, hs8⟩ := stepNoExternalIp_ok a7
    (by rw [f7 _ (by decide), f6 _ (by decide) (by decide),
          f5 _ (by decide) (by decide), f4 _ (by decide) (by decide),
          f3 _ (by decide), f2 _ (by decide), f1 _ (by decide)]; exact h8)
  have f8 : ∀ k, k ≠ "no_external_ip_flag" → lookupVal a8 k = lookupVal a7 k :=
    fun k hk => stepNoExternalIp_frame a7 a8 hs8 k hk
  have r8 : (lookupVal a8 "run_id").isSome := by rw [f8 _ (by decide)]; exact r7
  have p8 : (lookupVal a8 "custom_sources_path").isSome := by
    rw [f8 _ (by decide)]; exact p7
  obtain ⟨a9, hs9⟩ := stepAccelerator_ok a8
    (by rw [f8 _ (by decide), f7 _ (by decide), f6 _ (by decide) (by decide),
          f5 _ (by decide) (by decide), f4 _ (by decide) (by decide),
          f3 _ (by decide), f2 _ (by decide), f1 _ (by decide)]; exact h9)
  have f9 : ∀ k, k ≠ "accelerator_flag" → lookupVal a9 k = lookupVal a8 k :=
    fun k hk => stepAccelerator_frame a8 a9 hs9 k hk
  have r9 : (lookupVal a9 "run_id").isSome := by rw [f9 _ (by decide)]; exact r8
  have p9 : (lookupVal a9 "custom_sources_path").isSome := by
    rw [f9 _ (by decide)]; exact p8
  obtain ⟨a10, hs10⟩ := stepStorageLocation_ok a9
    (by rw [f9 _ (by decide), f8 _ (by decide), f7 _ (by decide),
          f6 _ (by decide) (by decide), f5 _ (by decide) (by decide),
          f4 _ (by decide) (by decide), f3 _ (by decide), f2 _ (by decide),
          f1 _ (by decide)]; exact h10)
  have f10 : ∀ k, k ≠ "storage_location_flag" → lookupVal a10 k = lookupVal a9 k :=
    fun k hk => stepStorageLocation_frame a9 a10 hs10 k hk
  have r10 : (lookupVal a10 "run_id").isSome := by rw [f10 _ (by decide)]; exact r9
  have p10 : (lookupVal a10 "custom_sources_path").isSome := by
    rw [f10 _ (by decide)]; exact p9
  obtain ⟨a11, hs11⟩ := stepMetadata_ok a10
    (by rw [f10 _ (by decide), f9 _ (by decide), f8 _ (by decide),
          f7 _ (by decide), f6 _ (by decide) (by decide),
          f5 _ (by decide) (by decide), f4 _ (by decide) (by decide),
          f3 _ (by decide), f2 _ (by decide), f1 _ (by decide)]; exact h11)
    (by rw [f10 _ (by decide), f9 _ (by decide), f8 _ (by decide),
          f7 _ (by decide), f6 _ (by decide) (by decide),
          f5 _ (by decide) (by decide), f4 _ (by decide) (by decide),
          f3 _ (by decide), f2 _ (by decide), f1 _ (by decide)]; exact h12)
    p10
  have f11 : ∀ k, k ≠ "metadata_flag" → lookupVal a11 k = lookupVal a10 k :=
    fun k hk => stepMetadata_frame a10 a11 hs11 k hk
  have r11 : (lookupVal a11 "run_id").isSome := by rw [f11 _ (by decide)]; exact r10
  have hinit : init_args args now = .ok a11 := by
    unfold init_args
    rw [hs1]; simp only [except_ok_bind]
    rw [hs2]; simp only [except_ok_bind]
    rw [hs3]; simp only [except_ok_bind]
    rw [hs4]; simp only [except_ok_bind]
    rw [hs5]; simp only [except_ok_bind]
    rw [hs6]; simp only [except_ok_bind]
    rw [hs7]; simp only [except_ok_bind]
    rw [hs8]; simp only [except_ok_bind]
    rw [hs9]; simp only [except_ok_bind]
    rw [hs10]; simp only [except_ok_bind]
    exact hs11
  exact ⟨a11, hinit, r11, init_args_frame args a11 now hinit⟩

/-- A format string whose placeholders before the first absent one all have
values errors out naming exactly that first absent placeholder. -/
theorem formatToks_error_first (args : Args) (pre post : List Tok) (F : String)
    (hpre : ∀ k, Tok.ph k ∈ pre → (lookupVal args k).isSome)
    (hF : lookupVal args F = none) :
    formatToks args (pre ++ Tok.ph F :: post) = .error F := by
  induction pre with
  | nil => simp [formatToks, hF]
  | cons hd tl ih =>
      have ih' := ih (fun k hk => hpre k (List.mem_cons_of_mem _ hk))
      cases hd with
      | lit s => simp [formatToks, ih']
      | ph k =>
          obtain ⟨v, hv⟩ := Option.isSome_iff_exists.mp
            (hpre k (List.mem_cons_self _ _))
          simp [formatToks, hv, ih']

/-- Bridge from the decidable `phOnly` check to the premise of
`formatToks_error_first`. -/
theorem phOnly_lookup (args : Args) (pre : List Tok) (allowed : List String)
    (hall : pre.all (phOnly allowed) = true)
    (hsome : ∀ k, k ∈ allowed → (lookupVal args k).isSome) :
    ∀ k, Tok.ph k ∈ pre → (lookupVal args k).isSome := by
  intro k hk
  have := List.all_eq_true.mp hall _ hk
  simp [phOnly] at this
  exact hsome k this

/-! ### The sources dictionary -/

theorem sset_notmem (d : List (String × String)) (k v : String)
    (h : ∀ kv ∈ d, kv.1 ≠ k) : sset d k v = d ++ [(k, v)] := by
  induction d with
  | nil => rfl
  | cons hd tl ih =>
      obtain ⟨k', v'⟩ := hd
      have hne : k' ≠ k := h (k', v') (by simp)
      simp only [sset, if_neg hne, List.cons_append]
      rw [ih (fun kv hkv => h kv (by simp [hkv]))]

/-- `d.update(extras)` with fresh, pairwise-distinct extra keys appends the
extras in order. -/
theorem dictUpdate_disjoint (extras d : List (String × String))
    (hnd : (extras.map Prod.fst).Nodup)
    (hdisj : ∀ k ∈ extras.map Prod.fst, ∀ kv ∈ d, kv.1 ≠ k) :
    dictUpdate d extras = d ++ extras := by
  induction extras generalizing d with
  | nil => simp [dictUpdate]
  | cons hd tl ih =>
      obtain ⟨k, v⟩ := hd
      have hstep : sset d k v = d ++ [(k, v)] :=
        sset_notmem d k v (hdisj k (by simp))
      have hnd' : (tl.map Prod.fst).Nodup := by
        simpa using hnd.of_cons
      have hdisj' : ∀ k' ∈ tl.map Prod.fst, ∀ kv ∈ d ++ [(k, v)], kv.1 ≠ k' := by
        intro k' hk' kv hkv
        rcases List.mem_append.mp hkv with hm | hm
        · exact hdisj k' (by simp [hk']) kv hm
        · simp at hm
          subst hm
          intro he
          subst he
          exact (List.nodup_cons.mp (by simpa using hnd)).1 hk'
      have := ih (d ++ [(k, v)]) hnd' hdisj'
      simp only [dictUpdate, List.foldl_cons] at *
      rw [hstep] at *
      simpa [List.append_assoc] using this

/-! ### Claims -/

/-- C4: the resolved sources map always starts with the two fixed entries
(`run.sh` ↦ the bootstrap script, then `init_actions.sh` ↦ the customization
script) followed by the caller's extras in caller order; an extra whose key
collides with a fixed name overwrites the fixed value in place
(last-write-wins); the rendered key/value arrays are index-aligned cell by
cell; and for the single extra `a.sh ↦ gs://x/a.sh` both arrays have three
cells with index 2 holding `a.sh` / `gs://x/a.sh`. -/
theorem c4_sources_map_merge (o : BuildOptions) (now : PyDateTime) :
    lookupVal (resolvedArgs o now) "sources_map_k" =
      some (.vStr (sourcesMapK (allSources o.customization_script o.extra_sources))) ∧
    lookupVal (resolvedArgs o now) "sources_map_v" =
      some (.vStr (sourcesMapV (allSources o.customization_script o.extra_sources))) ∧
    ((o.extra_sources.map Prod.fst).Nodup →
      (∀ k ∈ o.extra_sources.map Prod.fst, k ≠ "run.sh" ∧ k ≠ "init_actions.sh") →
      allSources o.customization_script o.extra_sources =
        [("run.sh", "startup_script/run.sh"),
         ("init_actions.sh", o.customization_script)] ++ o.extra_sources) ∧
    (∀ v, allSources o.customization_script [("init_actions.sh", v)] =
      [("run.sh", "startup_script/run.sh"), ("init_actions.sh", v)]) ∧
    (∀ l : List (String × String),
      (kCells l).length = l.length ∧ (vCells l).length = l.length ∧
      (∀ i, (kCells l).get? i = (l.get? i).map (fun kv => encodeCell i kv.1)) ∧
      (∀ i, (vCells l).get? i = (l.get? i).map (fun kv => encodeCell i kv.2))) ∧
    (allSources o.customization_script [("a.sh", "gs://x/a.sh")]).length = 3 ∧
    (allSources o.customization_script [("a.sh", "gs://x/a.sh")]).get? 2 =
      some ("a.sh", "gs://x/a.sh") ∧
    sourcesMapK (allSources o.customization_script [("a.sh", "gs://x/a.sh")]) =
      "[0]='run.sh' [1]='init_actions.sh' [2]='a.sh'" := by
  refine ⟨lookup_resolved_sources_map_k o now, lookup_resolved_sources_map_v o now,
    ?_, ?_, ?_, ?_, ?_, ?_⟩
  · intro hnd hdisj
    exact dictUpdate_disjoint _ _ hnd
      (by
        intro k hk kv hkv
        obtain ⟨h1, h2⟩ := hdisj k hk
        simp only [List.mem_cons, List.not_mem_nil, or_false] at hkv
        rcases hkv with rfl | rfl
        · simp [Ne.symm h1]
        · simp [Ne.symm h2])
  · intro v; rfl
  · intro l
    refine ⟨by simp [kCells], by simp [vCells], ?_, ?_⟩
    · intro i
      simp [kCells, List.get?_map, List.get?_enum]
      cases l.get? i <;> rfl
    · intro i
      simp [vCells, List.get?_map, List.get?_enum]
      cases l.get? i <;> rfl
  · rfl
  · rfl
  · have h2 : kCells (allSources o.customization_script [("a.sh", "gs://x/a.sh")]) =
        [encodeCell 0 "run.sh", encodeCell 1 "init_actions.sh",
         encodeCell 2 "a.sh"] := rfl
    unfold sourcesMapK
    rw [h2]
    decide

/-- Witness for C4 at the concrete demo options (whose single extra source is
`a.sh ↦ gs://x/a.sh`). -/
theorem c4_witness :
    allSources demoOptions.customization_script demoOptions.extra_sources =
      [("run.sh", "startup_script/run.sh"), ("init_actions.sh", "/local/init.sh"),
       ("a.sh", "gs://x/a.sh")] ∧
    sourcesMapK (allSources demoOptions.customization_script demoOptions.extra_sources) =
      "[0]='run.sh' [1]='init_actions.sh' [2]='a.sh'" := by
  obtain ⟨h1, h2, h3, h4, h5, h6, h7, h8⟩ := c4_sources_map_merge demoOptions demoNow
  constructor
  · have := h3 (by decide) (by decide)
    exact this.trans (by decide)
  · exact h8

theorem shParse_true_quote (l : List Char) :
    shParse true ('\'' :: l) = shParse false l := by
  conv_lhs => rw [shParse.eq_def]
  simp +decide

theorem shParse_true_other (c : Char) (l : List Char) (h : c ≠ '\'') :
    shParse true (c :: l) = (shParse true l).map (fun t => c :: t) := by
  conv_lhs => rw [shParse.eq_def]
  simp +decide [h]

theorem shParse_false_quote (l : List Char) :
    shParse false ('\'' :: l) = shParse true l := by
  conv_lhs => rw [shParse.eq_def]
  simp +decide

theorem shParse_false_backslash (c : Char) (l : List Char) :
    shParse false ('\\' :: c :: l) = (shParse false l).map (fun t => c :: t) := by
  conv_lhs => rw [shParse.eq_def]
  simp +decide

/-- Parsing the escaped body of a single-quoted span: the `'\''`
close-escape-reopen idiom recovers exactly the original characters. -/
theorem shParse_escape (fuel : Nat) (cs rest : List Char) (hf : cs.length ≤ fuel) :
    shParse true
        (pyReplaceAux ['\''] ['\'', '\\', '\'', '\''] fuel cs ++ '\'' :: rest) =
      (shParse false rest).map (fun t => cs ++ t) := by
  induction fuel generalizing cs rest with
  | zero =>
      have hcs : cs = [] := List.length_eq_zero.mp (Nat.le_zero.mp hf)
      subst hcs
      rw [show pyReplaceAux ['\''] ['\'', '\\', '\'', '\''] 0 [] = [] from rfl,
        List.nil_append, shParse_true_quote]
      cases hr : shParse false rest <;> simp [hr]
  | succ n ih =>
      cases cs with
      | nil =>
          rw [show pyReplaceAux ['\''] ['\'', '\\', '\'', '\''] (n + 1) [] = []
              from rfl,
            List.nil_append, shParse_true_quote]
          cases hr : shParse false rest <;> simp [hr]
      | cons c cs' =>
          have hf' : cs'.length ≤ n := by simpa using hf
          by_cases hc : c = '\''
          · subst hc
            rw [show pyReplaceAux ['\''] ['\'', '\\', '\'', '\''] (n + 1) ('\'' :: cs') =
                '\'' :: '\\' :: '\'' :: '\'' ::
                  pyReplaceAux ['\''] ['\'', '\\', '\'', '\''] n cs' from by
              simp +decide [pyReplaceAux, List.isPrefixOf]]
            rw [List.cons_append, List.cons_append, List.cons_append,
              List.cons_append, shParse_true_quote, shParse_false_backslash,
              shParse_false_quote, ih cs' rest hf']
            cases hr : shParse false rest <;> simp [hr]
          · rw [show pyReplaceAux ['\''] ['\'', '\\', '\'', '\''] (n + 1) (c :: cs') =
                c :: pyReplaceAux ['\''] ['\'', '\\', '\'', '\''] n cs' from by
              simp [pyReplaceAux, List.isPrefixOf, hc, Ne.symm hc]]
            rw [List.cons_append, shParse_true_other c _ hc, ih cs' rest hf']
            cases hr : shParse false rest <;> simp [hr]

/-- C5: every key and value of the sources map renders inside a single-quoted
shell literal with embedded quotes escaped via the `'\''` idiom, and the
result round-trips through the shell-word parser back to the original string;
in particular `it's.sh` renders as `[0]='it'\''s.sh'` with no unescaped
quote (the parser accepts the word). -/
theorem c5_quote_escaping_roundtrip :
    (∀ s : String, shUnquote ("'" ++ shQuoteEsc s ++ "'").data = some s.data) ∧
    shQuoteEsc "it's.sh" = "it'\\''s.sh" ∧
    encodeCell 0 "it's.sh" = "[0]='it'\\''s.sh'" ∧
    shUnquote ("'" ++ shQuoteEsc "it's.sh" ++ "'").data = some "it's.sh".data := by
  refine ⟨?_, by decide, by decide, by decide⟩
  intro s
  have hdata : ("'" ++ shQuoteEsc s ++ "'").data =
      '\'' :: ((shQuoteEsc s).data ++ ['\'']) := by
    simp [String.data_append]
  rw [shUnquote, hdata]
  have hesc : (shQuoteEsc s).data =
      pyReplaceAux ['\''] ['\'', '\\', '\'', '\''] s.data.length s.data := rfl
  rw [shParse_false_quote]
  rw [hesc, show ((pyReplaceAux ['\''] ['\'', '\\', '\'', '\'']
      s.data.length s.data) ++ ['\'']) =
      (pyReplaceAux ['\''] ['\'', '\\', '\'', '\''] s.data.length s.data) ++
        '\'' :: [] from rfl]
  rw [shParse_escape s.data.length s.data [] (Nat.le_refl _)]
  simp [shParse]

/-- C6: generation is deterministic for options that supply an explicit
`run_id`: the resolved dictionary and the rendered script text do not depend
on the wall clock, so re-resolving and re-rendering the same options yields
byte-identical results. -/
theorem c6_deterministic_generation (args : Args) (t1 t2 : PyDateTime)
    (h : (lookupVal args "run_id").isSome) :
    init_args args t1 = init_args args t2 ∧
      generate args t1 = generate args t2 := by
  obtain ⟨v, hv⟩ := Option.isSome_iff_exists.mp h
  have e1 : stepRunId t1 args = .ok args := stepRunId_present t1 args v hv
  have e2 : stepRunId t2 args = .ok args := stepRunId_present t2 args v hv
  constructor
  · unfold init_args; rw [e1, e2]
  · unfold generate init_args; rw [e1, e2]

/-- C2: first part — for every build options record in which the base-image
family is set (non-empty and not the literal "None"), the disk-source
conditional of the generated script selects `--image-family=<family>` and
never an `--image=` flag, and the rendered script contains exactly that
conditional; second part — for every build options record in which both
`network` and `subnetwork` are set, the resolved `subnetwork_flag` is
`--subnet=<subnetwork>` while `network_flag` resolves to the empty string.
The two parts quantify over the options separately. -/
theorem c2_family_and_subnetwork_win :
    (∀ (o : BuildOptions) (now : PyDateTime),
      o.base_image_family ≠ "" → o.base_image_family ≠ "None" →
      imageSource o.base_image_family o.base_image =
          "--image-family=" ++ o.base_image_family ∧
      (∀ r, imageSource o.base_image_family o.base_image ≠ "--image=" ++ r) ∧
      (∀ s, generate o.toArgs now = .ok s →
        ∃ p q, s = p ++
          (("  if [[ '" ++ o.base_image_family ++ "' = '' ||  '" ++
            o.base_image_family ++
            "' = 'None' ]]; then\n     IMAGE_SOURCE=\"--image=" ++
            o.base_image ++
            "\"\n  else\n     IMAGE_SOURCE=\"--image-family=" ++
            o.base_image_family ++ "\"\n  fi\n") ++ q))) ∧
    (∀ (o : BuildOptions) (now : PyDateTime),
      o.subnetwork ≠ "" → o.network ≠ "" →
      lookupVal (resolvedArgs o now) "subnetwork_flag" =
        some (.vStr ("--subnet=" ++ o.subnetwork)) ∧
      lookupVal (resolvedArgs o now) "network_flag" = some (.vStr "")) := by
  constructor
  · intro o now hfam hfam2
    refine ⟨?_, ?_, ?_⟩
    · simp [imageSource, hfam, hfam2]
    · intro r h
      rw [imageSource, if_neg (by simp [hfam, hfam2])] at h
      have h2 := congrArg String.data h
      simp [String.data_append] at h2
    · intro s hs
      unfold generate at hs
      rw [init_args_toArgs] at hs
      simp only [except_ok_bind] at hs
      obtain ⟨s1, s2, s3, s4, s5, s6, h1, h2, h3, h4, h5, h6, rfl⟩ :=
        render_decompose _ _ hs
      rw [render_diskIf] at h2
      cases h2
      exact ⟨s1, s3 ++ (s4 ++ (s5 ++ s6)), rfl⟩
  · intro o now hsub _hnet
    refine ⟨?_, ?_⟩
    · rw [lookup_resolved_subnetwork_flag]
      simp [pyTruthy, hsub]
    · rw [lookup_resolved_network_flag]
      simp [pyTruthy, hsub]

/-- Witness for C2 at the concrete demo options, one application per part. -/
theorem c2_witness :
    imageSource demoOptions.base_image_family demoOptions.base_image =
      "--image-family=" ++ demoOptions.base_image_family ∧
    lookupVal (resolvedArgs demoOptions demoNow) "subnetwork_flag" =
      some (.vStr ("--subnet=" ++ demoOptions.subnetwork)) ∧
    lookupVal (resolvedArgs demoOptions demoNow) "network_flag" =
      some (.vStr "") := by
  obtain ⟨h1, h2, h3⟩ :=
    (c2_family_and_subnetwork_win).1 demoOptions demoNow (by decide)
      (by decide)
  obtain ⟨h4, h5⟩ :=
    (c2_family_and_subnetwork_win).2 demoOptions demoNow (by decide)
      (by decide)
  exact ⟨h1, h4, h5⟩

/-- C1, counterexample: with every optional field empty, resolution succeeds
but `network_flag`, `subnetwork_flag` and `service_account_flag` are never
assigned — they do not resolve to the empty string, and rendering the script
fails with `KeyError("network_flag")` instead of emitting empty flags. -/
theorem c1_counterexample :
    init_args emptyOptionalOptions.toArgs demoNow =
      .ok (resolvedArgs emptyOptionalOptions demoNow) ∧
    lookupVal (resolvedArgs emptyOptionalOptions demoNow) "network_flag" = none ∧
    lookupVal (resolvedArgs emptyOptionalOptions demoNow) "subnetwork_flag" = none ∧
    lookupVal (resolvedArgs emptyOptionalOptions demoNow) "service_account_flag" = none ∧
    generate emptyOptionalOptions.toArgs demoNow = Except.error "network_flag" := by
  refine ⟨init_args_toArgs _ _, ?_, ?_, ?_, ?_⟩
  · rw [lookup_resolved_network_flag]; decide
  · rw [lookup_resolved_subnetwork_flag]; decide
  · rw [lookup_resolved_service_account_flag]; decide
  · unfold generate
    rw [init_args_toArgs]
    simp only [except_ok_bind, tmplToks, List.append_assoc]
    obtain ⟨sA, hA⟩ := render_head_ok emptyOptionalOptions demoNow
    rw [formatToks_append, hA]
    simp only [except_bind_ok]
    rw [formatToks_append, render_diskIf]
    simp only [except_bind_ok]
    rw [formatToks_append, render_mid1_error _ _ rfl rfl]
    rfl

/-- C1, amended: with the five optional fields empty, `_init_args` itself
succeeds; `accelerator_flag` and `storage_location_flag` do resolve to the
empty string (hence never contain the text "None" or "null"), but
`service_account_flag`, `network_flag` and `subnetwork_flag` are never
assigned, so rendering fails with `KeyError("network_flag")` — no command
line, with or without empty-string flags, is produced. -/
theorem c1_amended (o : BuildOptions) (now : PyDateTime)
    (hacc : o.accelerator = "") (hsa : o.service_account = "")
    (hsl : o.storage_location = "") (hnet : o.network = "")
    (hsub : o.subnetwork = "") :
    init_args o.toArgs now = .ok (resolvedArgs o now) ∧
    lookupVal (resolvedArgs o now) "accelerator_flag" = some (.vStr "") ∧
    lookupVal (resolvedArgs o now) "storage_location_flag" = some (.vStr "") ∧
    lookupVal (resolvedArgs o now) "service_account_flag" = none ∧
    lookupVal (resolvedArgs o now) "network_flag" = none ∧
    lookupVal (resolvedArgs o now) "subnetwork_flag" = none ∧
    generate o.toArgs now = Except.error "network_flag" := by
  refine ⟨init_args_toArgs _ _, ?_, ?_, ?_, ?_, ?_, ?_⟩
  · rw [lookup_resolved_accelerator_flag]; simp [pyTruthy, hacc]
  · rw [lookup_resolved_storage_location_flag]; simp [pyTruthy, hsl]
  · rw [lookup_resolved_service_account_flag]; simp [pyTruthy, hsa]
  · rw [lookup_resolved_network_flag]; simp [pyTruthy, hnet, hsub]
  · rw [lookup_resolved_subnetwork_flag]; simp [pyTruthy, hnet, hsub]
  · unfold generate
    rw [init_args_toArgs]
    simp only [except_ok_bind, tmplToks, List.append_assoc]
    obtain ⟨sA, hA⟩ := render_head_ok o now
    rw [formatToks_append, hA]
    simp only [except_bind_ok]
    rw [formatToks_append, render_diskIf]
    simp only [except_bind_ok]
    rw [formatToks_append, render_mid1_error _ _ hsub hnet]
    rfl

/-- Witness for C1's amended statement at the concrete options. -/
theorem c1_amended_witness :
    lookupVal (resolvedArgs emptyOptionalOptions demoNow) "accelerator_flag" =
      some (.vStr "") ∧
    lookupVal (resolvedArgs emptyOptionalOptions demoNow) "storage_location_flag" =
      some (.vStr "") := by
  obtain ⟨h1, h2, h3, h4, h5, h6, h7⟩ :=
    c1_amended emptyOptionalOptions demoNow rfl rfl rfl rfl rfl
  exact ⟨h2, h3⟩

/-- C3, counterexample: `bucket_name` is computed with
`replace("gs://", "")`, which removes every occurrence of `gs://`, not just a
scheme prefix: for `gcs_bucket = "gs://gs://b"` the code yields `"b"`, while
stripping the URI scheme prefix (the claim's wording, `specStripScheme`)
yields `"gs://b"`, and the derived paths use the former. -/
theorem c3_counterexample :
    lookupVal (resolvedArgs oddBucketOptions demoNow) "bucket_name" =
      some (.vStr "b") ∧
    specStripScheme oddBucketOptions.gcs_bucket = "gs://b" ∧
    ("b" : String) ≠ "gs://b" ∧
    lookupVal (resolvedArgs oddBucketOptions demoNow) "custom_sources_path" ≠
      some (.vStr ("gs://" ++ specStripScheme oddBucketOptions.gcs_bucket ++
        "/" ++ ridOf oddBucketOptions demoNow ++ "/sources")) := by
  refine ⟨?_, by decide, by decide, ?_⟩
  · rw [lookup_resolved_bucket_name]; decide
  · rw [lookup_resolved_custom_sources_path]; decide

/-- C3, amended: when `run_id` is not supplied it defaults to
`custom-image-<image_name>-<timestamp>` (for image name "demo": the literal
prefix `custom-image-demo-` followed by eight digits, a hyphen, and six
digits); a caller-supplied `run_id` is kept unchanged; and the derived paths
are `gs://<bucket_name>/<run_id>/sources`, `/tmp/<run_id>/logs` and
`gs://<bucket_name>/<run_id>/logs`, where `bucket_name` is `gcs_bucket` with
every occurrence of the substring `gs://` removed (which equals stripping the
scheme prefix whenever `gs://` occurs only there). -/
theorem c3_amended (o : BuildOptions) (now : PyDateTime) (hrid : o.run_id = none) :
    init_args o.toArgs now = .ok (resolvedArgs o now) ∧
    lookupVal (resolvedArgs o now) "run_id" =
      some (.vStr ("custom-image-" ++ o.image_name ++ "-" ++ strftimeTs now)) ∧
    (o.image_name = "demo" →
      lookupVal (resolvedArgs o now) "run_id" =
        some (.vStr ("custom-image-demo-" ++ strftimeTs now))) ∧
    (∃ d tmd, (strftimeTs now).data = d ++ '-' :: tmd ∧ d.length = 8 ∧
      tmd.length = 6 ∧ d.all Char.isDigit ∧ tmd.all Char.isDigit) ∧
    (∀ (o₂ : BuildOptions) (r : String), o₂.run_id = some r →
      lookupVal (resolvedArgs o₂ now) "run_id" = some (.vStr r)) ∧
    lookupVal (resolvedArgs o now) "bucket_name" =
      some (.vStr (pyReplace o.gcs_bucket "gs://" "")) ∧
    lookupVal (resolvedArgs o now) "custom_sources_path" =
      some (.vStr ("gs://" ++ pyReplace o.gcs_bucket "gs://" "" ++ "/" ++
        ("custom-image-" ++ o.image_name ++ "-" ++ strftimeTs now) ++ "/sources")) ∧
    lookupVal (resolvedArgs o now) "log_dir" =
      some (.vStr ("/tmp/" ++
        ("custom-image-" ++ o.image_name ++ "-" ++ strftimeTs now) ++ "/logs")) ∧
    lookupVal (resolvedArgs o now) "gcs_log_dir" =
      some (.vStr ("gs://" ++ pyReplace o.gcs_bucket "gs://" "" ++ "/" ++
        ("custom-image-" ++ o.image_name ++ "-" ++ strftimeTs now) ++ "/logs")) := by
  have hr : ridOf o now = "custom-image-" ++ o.image_name ++ "-" ++ strftimeTs now := by
    unfold ridOf; rw [hrid]
  refine ⟨init_args_toArgs _ _, ?_, ?_, strftime_pattern now, ?_, ?_, ?_, ?_, ?_⟩
  · rw [lookup_resolved_run_id, hr]
  · intro hd
    rw [lookup_resolved_run_id, hr, hd]
    simp
  · intro o₂ r hr2
    rw [lookup_resolved_run_id]
    unfold ridOf; rw [hr2]
  · rw [lookup_resolved_bucket_name]; unfold bnOf; rfl
  · rw [lookup_resolved_custom_sources_path]; unfold cspOf bnOf; rw [hr]
  · rw [lookup_resolved_log_dir, hr]
  · rw [lookup_resolved_gcs_log_dir, hr]; unfold bnOf; rfl

/-- Witness for C3's amended statement at the concrete demo options. -/
theorem c3_amended_witness :
    lookupVal (resolvedArgs demoOptions demoNow) "run_id" =
      some (.vStr ("custom-image-demo-" ++ strftimeTs demoNow)) ∧
    lookupVal (resolvedArgs demoOptions demoNow) "log_dir" =
      some (.vStr ("/tmp/" ++ ("custom-image-demo-" ++ strftimeTs demoNow) ++ "/logs")) := by
  obtain ⟨h1, h2, h3, h4, h5, h6, h7, h8, h9⟩ := c3_amended demoOptions demoNow rfl
  refine ⟨h3 rfl, ?_⟩
  rw [h8]; rfl

/-- C7: the generated script's result detection — `BuildFailed:` anywhere in
the captured log forces the terminal failure branch even when
`BuildSucceeded:` is also present; `BuildSucceeded:` without `BuildFailed:`
proceeds to image creation; neither sentinel yields the undetermined-result
failure branch; success is never reported without the positive sentinel.  The
rendered script contains exactly this `if grep / elif grep / else` step over
`<log_dir>/startup-script.log`. -/
theorem c7_result_detection :
    (∀ log, grepMatch "BuildFailed:" log = true →
      checkResult log = .buildFailed) ∧
    (∀ log, grepMatch "BuildFailed:" log = true →
      grepMatch "BuildSucceeded:" log = true →
      checkResult log = .buildFailed) ∧
    (∀ log, grepMatch "BuildFailed:" log = false →
      grepMatch "BuildSucceeded:" log = true →
      checkResult log = .buildSucceeded) ∧
    (∀ log, grepMatch "BuildFailed:" log = false →
      grepMatch "BuildSucceeded:" log = false →
      checkResult log = .undetermined) ∧
    (∀ log, checkResult log = .buildSucceeded →
      grepMatch "BuildSucceeded:" log = true ∧
      grepMatch "BuildFailed:" log = false) ∧
    (∀ (o : BuildOptions) (now : PyDateTime) (s : String),
      generate o.toArgs now = .ok s →
      ∃ p q, s = p ++
        (("  echo 'Checking customization script result.'\n  if grep 'BuildFailed:' " ++
          ("/tmp/" ++
            (ridOf o now ++
              ("/logs" ++
                ("/startup-script.log; then\n    echo -e \"$\x7bRED\x7dCustomization script failed.$\x7bNC\x7d\"\n    exit 1\n  elif grep 'BuildSucceeded:' " ++
                  ("/tmp/" ++
                    (ridOf o now ++
                      "/logs/startup-script.log; then\n    echo -e \"$\x7bGREEN\x7dCustomization script succeeded.$\x7bNC\x7d\"\n  else\n    echo 'Unable to determine the customization script result.'\n    exit 1\n  fi\n"))))))) ++ q)) := by
  refine ⟨?_, ?_, ?_, ?_, ?_, ?_⟩
  · intro log h; simp [checkResult, h]
  · intro log h _; simp [checkResult, h]
  · intro log h1 h2; simp [checkResult, h1, h2]
  · intro log h1 h2; simp [checkResult, h1, h2]
  · intro log h
    unfold checkResult at h
    by_cases h1 : grepMatch "BuildFailed:" log = true
    · rw [if_pos h1] at h; cases h
    · rw [if_neg h1] at h
      by_cases h2 : grepMatch "BuildSucceeded:" log = true
      · exact ⟨h2, by simpa using h1⟩
      · rw [if_neg h2] at h; cases h
  · intro o now s hs
    unfold generate at hs
    rw [init_args_toArgs] at hs
    simp only [except_ok_bind] at hs
    obtain ⟨s1, s2, s3, s4, s5, s6, h1, h2, h3, h4, h5, h6, rfl⟩ :=
      render_decompose _ _ hs
    rw [render_resultCheck] at h4
    cases h4
    exact ⟨s1 ++ (s2 ++ s3), s5 ++ s6, by simp [String.append_assoc]⟩

/-- Witness for C7 at concrete logs: a log carrying both sentinels is
classified as failed, and a log with neither is undetermined. -/
theorem c7_witness :
    checkResult "x BuildFailed: boom\ny BuildSucceeded: ok" = .buildFailed ∧
    checkResult "nothing conclusive here" = .undetermined := by
  obtain ⟨hf, hboth, hsonly, hnone, hnotsucc, htmpl⟩ := c7_result_detection
  exact ⟨hboth _ (by decide) (by decide), hnone _ (by decide) (by decide)⟩

/-- C8: the cleanup handler deletes the VM when the `vm_created` marker
exists (and then never deletes the disk directly), deletes the disk when only
`disk_created` exists, always syncs the local log directory to the bucket,
and exits 0 exactly when `image_created` exists; the rendered script installs
the `exit_handler` trap and only then creates the log directory and invokes
`main` (the suffix of the script is exactly the trap installation, `mkdir`,
and the `main` invocation, and all resource-creating commands live inside
`main`). -/
theorem c8_cleanup_protocol :
    (∀ m : Markers, m.vm_created = true →
      exitHandlerActs m = [.deleteVM, .syncLogs]) ∧
    (∀ m : Markers, m.vm_created = true →
      CleanupAct.deleteDisk ∉ exitHandlerActs m) ∧
    (∀ m : Markers, m.vm_created = false → m.disk_created = true →
      exitHandlerActs m = [.deleteDisk, .syncLogs]) ∧
    (∀ m : Markers, CleanupAct.syncLogs ∈ exitHandlerActs m) ∧
    (∀ m : Markers, exitHandlerCode m = 0 ↔ m.image_created = true) ∧
    (∀ (o : BuildOptions) (now : PyDateTime) (s : String),
      generate o.toArgs now = .ok s →
      ∃ p, s = p ++
        ("trap exit_handler EXIT\nmkdir -p " ++
          ("/tmp/" ++
            (ridOf o now ++
              ("/logs" ++
                ("\nmain \"$@\" 2>&1 | tee " ++
                  ("/tmp/" ++ (ridOf o now ++ "/logs/workflow.log\n")))))))) := by
  refine ⟨?_, ?_, ?_, ?_, ?_, ?_⟩
  · intro m h; simp [exitHandlerActs, h]
  · intro m h; simp [exitHandlerActs, h]
  · intro m h1 h2; simp [exitHandlerActs, h1, h2]
  · intro m
    unfold exitHandlerActs
    split_ifs <;> simp
  · intro m
    unfold exitHandlerCode
    split_ifs with h <;> simp [h]
  · intro o now s hs
    unfold generate at hs
    rw [init_args_toArgs] at hs
    simp only [except_ok_bind] at hs
    obtain ⟨s1, s2, s3, s4, s5, s6, h1, h2, h3, h4, h5, h6, rfl⟩ :=
      render_decompose _ _ hs
    rw [render_tail] at h6
    cases h6
    exact ⟨s1 ++ (s2 ++ (s3 ++ (s4 ++ s5))), by simp [String.append_assoc]⟩

/-- Witness for C8 at concrete marker states: only `disk_created` set deletes
the disk; `vm_created` set deletes the VM and not the disk; exit code follows
`image_created`. -/
theorem c8_witness :
    exitHandlerActs ⟨false, true, false⟩ = [.deleteDisk, .syncLogs] ∧
    exitHandlerActs ⟨true, true, false⟩ = [.deleteVM, .syncLogs] ∧
    exitHandlerCode ⟨true, true, false⟩ ≠ 0 := by
  obtain ⟨hvm, hnodisk, hdisk, hsync, hcode, htmpl⟩ := c8_cleanup_protocol
  refine ⟨hdisk _ rfl rfl, hvm _ rfl, ?_⟩
  intro h0
  have := (hcode ⟨true, true, false⟩).mp h0
  cases this

/-- Witness for C6 at a concrete dictionary and two different timestamps. -/
theorem c6_witness :
    init_args demoRunOptions.toArgs demoNow = init_args demoRunOptions.toArgs altNow ∧
      generate demoRunOptions.toArgs demoNow = generate demoRunOptions.toArgs altNow :=
  c6_deterministic_generation demoRunOptions.toArgs demoNow altNow (by decide)

set_option maxRecDepth 16000 in
/-- C9: generation fails, with no script text produced, whenever a field
required for an unconditional substitution is absent.  First part: on any
caller dictionary missing one of the five required fields, `generate` never
returns a script.  Second part: for every build options record and clock,
removing exactly one required field from the caller's dictionary makes
`generate` fail with a `KeyError` naming precisely that field (the failure
is an `Except.error`, so it happens before any script text is returned). -/
theorem c9_missing_required_field :
    (∀ (args : Args) (now : PyDateTime) (s : String) (F : String),
      F ∈ (["image_name", "project_id", "zone", "gcs_bucket",
            "customization_script"] : List String) →
      lookupVal args F = none → generate args now ≠ .ok s) ∧
    (∀ (o : BuildOptions) (now : PyDateTime) (F : String),
      F ∈ (["image_name", "project_id", "zone", "gcs_bucket",
            "customization_script"] : List String) →
      generate (removeKey o.toArgs F) now = Except.error F) := by
  constructor
  · intro args now s F hF hnone hgen
    unfold generate at hgen
    cases hinit : init_args args now <;> rw [hinit] at hgen
    · cases hgen
    rename_i a'
    simp only [except_ok_bind] at hgen
    obtain ⟨a1, a2, a3, a4, a5, a6, a7, a8, a9, a10, h1, h2, h3, h4, h5, h6,
      h7, h8, h9, h10, h11⟩ := init_args_ok_decompose args a' now hinit
    fin_cases hF
    · have hmem : Tok.ph "image_name" ∈ tmplToks := by decide
      have hsome := formatToks_ok_keys _ _ _ hgen _ hmem
      rw [init_args_frame args a' now hinit _ (by decide), hnone] at hsome
      cases hsome
    · have hmem : Tok.ph "project_id" ∈ tmplToks := by decide
      have hsome := formatToks_ok_keys _ _ _ hgen _ hmem
      rw [init_args_frame args a' now hinit _ (by decide), hnone] at hsome
      cases hsome
    · have hmem : Tok.ph "zone" ∈ tmplToks := by decide
      have hsome := formatToks_ok_keys _ _ _ hgen _ hmem
      rw [init_args_frame args a' now hinit _ (by decide), hnone] at hsome
      cases hsome
    · unfold stepBucketName at h2
      cases hg : getArg a1 "gcs_bucket" <;> rw [hg] at h2
      · cases h2
      have := getArg_ok _ _ _ hg
      rw [stepRunId_frame _ _ _ h1 _ (by decide), hnone] at this
      cases this
    · unfold stepSources at h4
      cases hc : getArg a3 "customization_script" <;> rw [hc] at h4
      · cases h4
      have := getArg_ok _ _ _ hc
      rw [stepSourcesPath_frame _ _ h3 _ (by decide),
        stepBucketName_frame _ _ h2 _ (by decide),
        stepRunId_frame _ _ _ h1 _ (by decide), hnone] at this
      cases this
  · intro o now F hF
    fin_cases hF
    · cases hr : o.run_id with
      | none =>
          have him : lookupVal (removeKey o.toArgs "image_name") "image_name"
              = none := by
            rw [lookupVal_removeKey, if_pos rfl]
          have hrn : lookupVal (removeKey o.toArgs "image_name") "run_id"
              = none := by
            rw [lookupVal_removeKey, if_neg (by decide)]
            simp [hr]
          have hs : stepRunId now (removeKey o.toArgs "image_name") =
              .error "image_name" := by
            unfold stepRunId
            rw [hrn]
            simp +decide [formatToks, lookupVal_dset_ne, him]
          unfold generate init_args
          rw [hs]
          rfl
      | some r =>
          obtain ⟨a', hinit, hrid, hframe⟩ :=
            init_args_ok_general (removeKey o.toArgs "image_name") now
              (Or.inl (by rw [lookupVal_removeKey, if_neg (by decide)]
                          simp [hr]))
              (by rw [lookupVal_removeKey, if_neg (by decide)]; simp)
              (by rw [lookupVal_removeKey, if_neg (by decide)]; simp)
              (by rw [lookupVal_removeKey, if_neg (by decide)]; simp)
              (by rw [lookupVal_removeKey, if_neg (by decide)]; simp)
              (by rw [lookupVal_removeKey, if_neg (by decide)]; simp)
              (by rw [lookupVal_removeKey, if_neg (by decide)]; simp)
              (by rw [lookupVal_removeKey, if_neg (by decide)]; simp)
              (by rw [lookupVal_removeKey, if_neg (by decide)]; simp)
              (by rw [lookupVal_removeKey, if_neg (by decide)]; simp)
              (by rw [lookupVal_removeKey, if_neg (by decide)]; simp)
              (by rw [lookupVal_removeKey, if_neg (by decide)]; simp)
          unfold generate
          rw [hinit]
          simp only [except_ok_bind]
          rw [show tmplToks =
              tmplToks.take 3 ++ Tok.ph "image_name" :: tmplToks.drop 4
            from by rfl]
          exact formatToks_error_first a' _ _ _
            (phOnly_lookup a' _ ["run_id"] (by decide)
              (fun k hk => by
                simp only [List.mem_singleton] at hk
                subst hk
                exact hrid))
            (by rw [hframe _ (by decide), lookupVal_removeKey, if_pos rfl])
    · obtain ⟨a', hinit, hrid, hframe⟩ :=
        init_args_ok_general (removeKey o.toArgs "project_id") now
          (Or.inr (by rw [lookupVal_removeKey, if_neg (by decide)]; simp))
          (by rw [lookupVal_removeKey, if_neg (by decide)]; simp)
          (by rw [lookupVal_removeKey, if_neg (by decide)]; simp)
          (by rw [lookupVal_removeKey, if_neg (by decide)]; simp)
          (by rw [lookupVal_removeKey, if_neg (by decide)]; simp)
          (by rw [lookupVal_removeKey, if_neg (by decide)]; simp)
          (by rw [lookupVal_removeKey, if_neg (by decide)]; simp)
          (by rw [lookupVal_removeKey, if_neg (by decide)]; simp)
          (by rw [lookupVal_removeKey, if_neg (by decide)]; simp)
          (by rw [lookupVal_removeKey, if_neg (by decide)]; simp)
          (by rw [lookupVal_removeKey, if_neg (by decide)]; simp)
          (by rw [lookupVal_removeKey, if_neg (by decide)]; simp)
      unfold generate
      rw [hinit]
      simp only [except_ok_bind]
      rw [show tmplToks =
          tmplToks.take 5 ++ Tok.ph "project_id" :: tmplToks.drop 6
        from by rfl]
      exact formatToks_error_first a' _ _ _
        (phOnly_lookup a' _ ["run_id", "image_name"] (by decide)
          (fun k hk => by
            simp only [List.mem_cons, List.mem_singleton,
              List.not_mem_nil, or_false] at hk
            rcases hk with rfl | rfl
            · exact hrid
            · rw [hframe _ (by decide), lookupVal_removeKey,
                if_neg (by decide)]
              simp))
        (by rw [hframe _ (by decide), lookupVal_removeKey, if_pos rfl])
    · obtain ⟨a', hinit, hrid, hframe⟩ :=
        init_args_ok_general (removeKey o.toArgs "zone") now
          (Or.inr (by rw [lookupVal_removeKey, if_neg (by decide)]; simp))
          (by rw [lookupVal_removeKey, if_neg (by decide)]; simp)
          (by rw [lookupVal_removeKey, if_neg (by decide)]; simp)
          (by rw [lookupVal_removeKey, if_neg (by decide)]; simp)
          (by rw [lookupVal_removeKey, if_neg (by decide)]; simp)
          (by rw [lookupVal_removeKey, if_neg (by decide)]; simp)
          (by rw [lookupVal_removeKey, if_neg (by decide)]; simp)
          (by rw [lookupVal_removeKey, if_neg (by decide)]; simp)
          (by rw [lookupVal_removeKey, if_neg (by decide)]; simp)
          (by rw [lookupVal_removeKey, if_neg (by decide)]; simp)
          (by rw [lookupVal_removeKey, if_neg (by decide)]; simp)
          (by rw [lookupVal_removeKey, if_neg (by decide)]; simp)
      unfold generate
      rw [hinit]
      simp only [except_ok_bind]
      rw [show tmplToks =
          tmplToks.take 7 ++ Tok.ph "zone" :: tmplToks.drop 8
        from by rfl]
      exact formatToks_error_first a' _ _ _
        (phOnly_lookup a' _ ["run_id", "image_name", "project_id"] (by decide)
          (fun k hk => by
            simp only [List.mem_cons, List.mem_singleton,
              List.not_mem_nil, or_false] at hk
            rcases hk with rfl | rfl | rfl
            · exact hrid
            · rw [hframe _ (by decide), lookupVal_removeKey,
                if_neg (by decide)]
              simp
            · rw [hframe _ (by decide), lookupVal_removeKey,
                if_neg (by decide)]
              simp))
        (by rw [hframe _ (by decide), lookupVal_removeKey, if_pos rfl])
    · obtain ⟨a1, hs1⟩ := stepRunId_ok now (removeKey o.toArgs "gcs_bucket")
        (Or.inr (by rw [lookupVal_removeKey, if_neg (by decide)]; simp))
      have hgb : lookupVal a1 "gcs_bucket" = none := by
        rw [stepRunId_frame _ _ _ hs1 _ (by decide), lookupVal_removeKey,
          if_pos rfl]
      have hs2 : stepBucketName a1 = .error "gcs_bucket" := by
        unfold stepBucketName getArg
        rw [hgb]
        rfl
      unfold generate init_args
      rw [hs1]
      simp only [except_ok_bind]
      rw [hs2]
      rfl
    · obtain ⟨a1, hs1⟩ :=
        stepRunId_ok now (removeKey o.toArgs "customization_script")
          (Or.inr (by rw [lookupVal_removeKey, if_neg (by decide)]; simp))
      obtain ⟨a2, hs2⟩ := stepBucketName_ok a1
        (by rw [stepRunId_frame _ _ _ hs1 _ (by decide), lookupVal_removeKey,
              if_neg (by decide)]
            simp)
      obtain ⟨a3, hs3⟩ := stepSourcesPath_ok a2
        (stepBucketName_writes a1 a2 hs2)
        (by rw [stepBucketName_frame _ _ hs2 _ (by decide)]
            exact stepRunId_writes now _ a1 hs1)
      have hcs : lookupVal a3 "customization_script" = none := by
        rw [stepSourcesPath_frame _ _ hs3 _ (by decide),
          stepBucketName_frame _ _ hs2 _ (by decide),
          stepRunId_frame _ _ _ hs1 _ (by decide),
          lookupVal_removeKey, if_pos rfl]
      have hs4 : stepSources a3 = .error "customization_script" := by
        unfold stepSources getArg
        rw [hcs]
        rfl
      unfold generate init_args
      rw [hs1]
      simp only [except_ok_bind]
      rw [hs2]
      simp only [except_ok_bind]
      rw [hs3]
      simp only [except_ok_bind]
      rw [hs4]
      rfl

/-- Witness for C9 at a concrete dictionary: removing `image_name` from the
demo options that carry an explicit `run_id` makes generation fail with a
`KeyError` naming `image_name`; the dictionary indeed lacks the field while
still supplying `run_id`. -/
theorem c9_witness :
    lookupVal (removeKey demoRunOptions.toArgs "image_name") "image_name" =
      none ∧
    (lookupVal (removeKey demoRunOptions.toArgs "image_name") "run_id").isSome
      = true ∧
    generate (removeKey demoRunOptions.toArgs "image_name") demoNow =
      Except.error "image_name" := by
  refine ⟨by decide, by decide, ?_⟩
  exact (c9_missing_required_field).2 demoRunOptions demoNow "image_name"
    (by decide)

/-- C10, counterexample: after a successful resolution with empty
`service_account`, the caller's dictionary does *not* contain the
`service_account_flag` conditional flag string (nor the network flags), so
the mapping does not "additionally contain … all conditional flag strings". -/
theorem c10_counterexample :
    init_args emptyOptionalOptions.toArgs demoNow =
      .ok (resolvedArgs emptyOptionalOptions demoNow) ∧
    lookupVal (resolvedArgs emptyOptionalOptions demoNow)
      "service_account_flag" = none := by
  refine ⟨init_args_toArgs _ _, ?_⟩
  rw [lookup_resolved_service_account_flag]
  decide

/-- C10, amended: resolution returns the caller's mapping extended in place:
every key outside the derived set keeps its original value; a caller-supplied
`run_id` is kept; `run_id`, `bucket_name`, `custom_sources_path`,
`sources_map_k`, `sources_map_v`, `log_dir`, `gcs_log_dir`,
`no_external_ip_flag`, `accelerator_flag`, `storage_location_flag` and
`metadata_flag` are always present afterwards; the network flags are present
iff `subnetwork` or `network` is truthy, and `service_account_flag` iff
`service_account` is truthy. -/
theorem c10_amended (o : BuildOptions) (now : PyDateTime) :
    init_args o.toArgs now = .ok (resolvedArgs o now) ∧
    (∀ k, ¬ k ∈ derivedKeys →
      lookupVal (resolvedArgs o now) k = lookupVal o.toArgs k) ∧
    (∀ r, o.run_id = some r →
      lookupVal (resolvedArgs o now) "run_id" = some (.vStr r)) ∧
    (lookupVal (resolvedArgs o now) "run_id").isSome ∧
    (lookupVal (resolvedArgs o now) "bucket_name").isSome ∧
    (lookupVal (resolvedArgs o now) "custom_sources_path").isSome ∧
    (lookupVal (resolvedArgs o now) "sources_map_k").isSome ∧
    (lookupVal (resolvedArgs o now) "sources_map_v").isSome ∧
    (lookupVal (resolvedArgs o now) "log_dir").isSome ∧
    (lookupVal (resolvedArgs o now) "gcs_log_dir").isSome ∧
    (lookupVal (resolvedArgs o now) "no_external_ip_flag").isSome ∧
    (lookupVal (resolvedArgs o now) "accelerator_flag").isSome ∧
    (lookupVal (resolvedArgs o now) "storage_location_flag").isSome ∧
    (lookupVal (resolvedArgs o now) "metadata_flag").isSome ∧
    (pyTruthy (.vStr o.subnetwork) = true →
      (lookupVal (resolvedArgs o now) "subnetwork_flag").isSome ∧
      (lookupVal (resolvedArgs o now) "network_flag").isSome) ∧
    (pyTruthy (.vStr o.service_account) = true →
      (lookupVal (resolvedArgs o now) "service_account_flag").isSome) ∧
    (o.subnetwork = "" → o.network = "" →
      lookupVal (resolvedArgs o now) "subnetwork_flag" = none ∧
      lookupVal (resolvedArgs o now) "network_flag" = none) ∧
    (o.service_account = "" →
      lookupVal (resolvedArgs o now) "service_account_flag" = none) := by
  refine ⟨init_args_toArgs o now, lookup_resolved_other o now, ?_, ?_, ?_, ?_,
    ?_, ?_, ?_, ?_, ?_, ?_, ?_, ?_, ?_, ?_, ?_, ?_⟩
  · intro r hr
    rw [lookup_resolved_run_id]
    unfold ridOf
    rw [hr]
  · simp
  · simp
  · simp
  · simp
  · simp
  · simp
  · simp
  · simp
  · simp
  · simp
  · simp
  · intro ht
    rw [lookup_resolved_subnetwork_flag, lookup_resolved_network_flag]
    simp [ht]
  · intro ht
    rw [lookup_resolved_service_account_flag]
    simp [ht]
  · intro h1 h2
    rw [lookup_resolved_subnetwork_flag, lookup_resolved_network_flag]
    simp [pyTruthy, h1, h2]
  · intro h1
    rw [lookup_resolved_service_account_flag]
    simp [pyTruthy, h1]

/-- Witness for C10's amended statement at the demo options with an explicit
`run_id`. -/
theorem c10_amended_witness :
    lookupVal (resolvedArgs demoRunOptions demoNow) "run_id" =
      some (.vStr "my-run-7") ∧
    lookupVal (resolvedArgs demoRunOptions demoNow) "image_name" =
      lookupVal demoRunOptions.toArgs "image_name" := by
  obtain ⟨hinit, hframe, hrid, _⟩ := c10_amended demoRunOptions demoNow
  exact ⟨hrid "my-run-7" rfl, hframe "image_name" (by decide)⟩

end ShellScriptGenerator
